import Mathlib

/-!
Web Chat API: request handlers over a single `messages` table.

A shallow embedding of `main.go`: the two message endpoints, the health
endpoint, the JSON responders and the logging / tracing middleware, as pure
functions over an explicit program state (table rows, executed statements,
logger output, readiness flag, response writer).

Library behaviour the handlers rely on (`strings.Split`, `strconv.Atoi`,
the `http.ResponseWriter` contract, `encoding/json` struct tags) is modelled
next to the code that uses it.  Go strings are modelled by Lean strings; the
only separator and digits the code inspects are ASCII.
-/

set_option autoImplicit false
set_option linter.dupNamespace false

deriving instance DecidableEq for Except

namespace strings

/-- The pieces of a character list between occurrences of `sep`
(`n` occurrences give `n + 1` pieces, the empty input gives one empty piece). -/
def splitChars (sep : Char) : List Char → List (List Char)
  | [] => [[]]
  | c :: cs =>
    if c = sep then [] :: splitChars sep cs
    else
      match splitChars sep cs with
      | [] => [[c]]
      | piece :: rest => (c :: piece) :: rest

/-- Go `strings.Split(s, sep)` for a one-character separator. -/
def Split (s : String) (sep : Char) : List String :=
  (splitChars sep s.data).map String.mk

end strings

namespace strconv

/-- The two errors of `strconv` number parsing (`ErrSyntax`, `ErrRange`). -/
inductive ErrKind where
  | invalid
  | outOfRange
  deriving DecidableEq, Repr

/-- Go `*strconv.NumError`: failing function, input text and cause. -/
structure NumError where
  Func : String
  Num : String
  Err : ErrKind
  deriving DecidableEq, Repr

/-- Value of an ASCII decimal digit. -/
def digitVal (c : Char) : Option Nat :=
  if 48 ≤ c.toNat ∧ c.toNat ≤ 57 then some (c.toNat - 48) else none

/-- Digit loop of `ParseUint(s, 10, 64)`: a character that is not a decimal
digit is a syntax error, a value above `2^64 - 1` a range error, whichever
comes first from the left. -/
def parseUint : List Char → Nat → Except ErrKind Nat
  | [], n => .ok n
  | c :: cs, n =>
    match digitVal c with
    | none => .error .invalid
    | some d => if 2 ^ 64 ≤ n * 10 + d then .error .outOfRange else parseUint cs (n * 10 + d)

/-- Largest value of a Go `int` on a 64-bit platform. -/
def maxInt : Int := 2 ^ 63 - 1

/-- Signed parse of `ParseInt(s, 10, 0)` on the characters of `s`. -/
def parseInt : List Char → Except ErrKind Int
  | [] => .error .invalid
  | c :: cs =>
    let neg := c = '-'
    let ds := if c = '-' ∨ c = '+' then cs else c :: cs
    match ds with
    | [] => .error .invalid
    | _ :: _ =>
      match parseUint ds 0 with
      | .error e => .error e
      | .ok un =>
        if ¬ neg ∧ 2 ^ 63 ≤ un then .error .outOfRange
        else if neg ∧ 2 ^ 63 < un then .error .outOfRange
        else .ok (if neg then - (un : Int) else (un : Int))

/-- Go `strconv.Atoi` (64-bit `int`): optional sign, decimal digits, result
within `[-2^63, 2^63 - 1]`; the short-input fast path computes the same. -/
def Atoi (s : String) : Except NumError Int :=
  match parseInt s.data with
  | .ok n => .ok n
  | .error e => .error { Func := "Atoi", Num := s, Err := e }

/-- Character of a decimal digit `d < 10`. -/
def digitChar (d : Nat) : Char := Char.ofNat (48 + d)

/-- Decimal digits of `n`, least significant first (`fuel` bounds the length). -/
def digitsRev : Nat → Nat → List Char
  | 0, _ => []
  | fuel + 1, n => if n < 10 then [digitChar n] else digitChar (n % 10) :: digitsRev fuel (n / 10)

/-- Go `strconv.Itoa` on a natural number: its decimal text. -/
def Itoa (n : Nat) : String := String.mk (digitsRev (n + 1) n).reverse

end strconv

namespace url

/-- The part of Go `url.URL` the program reads. -/
structure URL where
  Path : String
  RawQuery : String
  deriving DecidableEq, Repr

/-- Value of a hexadecimal digit. -/
def hexVal (c : Char) : Option Nat :=
  if 48 ≤ c.toNat ∧ c.toNat ≤ 57 then some (c.toNat - 48)
  else if 97 ≤ c.toNat ∧ c.toNat ≤ 102 then some (c.toNat - 87)
  else if 65 ≤ c.toNat ∧ c.toNat ≤ 70 then some (c.toNat - 55)
  else none

/-- Percent-decoding of a path (`unescape` in path mode): `%XY` becomes the
byte `XY`, every other character stands for itself, a malformed escape is an
error.  Escapes of bytes above 127 are left out of this model (`none`). -/
def unescape : List Char → Option (List Char)
  | [] => some []
  | c :: rest =>
    if c = '%' then
      match rest with
      | a :: b :: rest2 =>
        match hexVal a, hexVal b with
        | some x, some y =>
          if 16 * x + y < 128 then (unescape rest2).map (fun t => Char.ofNat (16 * x + y) :: t)
          else none
        | _, _ => none
      | _ => none
    else (unescape rest).map (fun t => c :: t)

/-- Characters of a scheme after its first letter. -/
def schemeChar (c : Char) : Bool := c.isAlpha || c.isDigit || c = '+' || c = '-' || c = '.'

/-- Characters of a plain host name: letters, digits, dot and hyphen. -/
def hostChar (c : Char) : Bool := c.isAlpha || c.isDigit || c = '.' || c = '-'

/-- An absolute-form request target `scheme://host/path?query` with a plain
host name: the query is cut off at the first `?`, the host runs up to the next
slash, and what follows it is percent-decoded into `Path`.  Hosts with a port,
user information or brackets are not modelled (`none`). -/
def parseAbsolute (chars : List Char) : Option URL :=
  match chars.takeWhile schemeChar, chars.dropWhile schemeChar with
  | first :: _, ':' :: '/' :: '/' :: rest =>
    let beforeQuery := rest.takeWhile (fun c => c ≠ '?')
    let query := (rest.dropWhile (fun c => c ≠ '?')).drop 1
    let host := beforeQuery.takeWhile (fun c => c ≠ '/')
    let raw := beforeQuery.dropWhile (fun c => c ≠ '/')
    if first.isAlpha ∧ host ≠ [] ∧ host.all hostChar then
      (unescape raw).map (fun p => { Path := String.mk p, RawQuery := String.mk query })
    else none
  | _, _ => none

/-- Go `url.ParseRequestURI` on a request target without control characters.
Origin form (the target starts with a slash): the text before the first `?` is
percent-decoded into `Path`, the text after it is `RawQuery`.  Absolute form:
see `parseAbsolute`.  Other targets are not modelled (`none`). -/
def ParseRequestURI (target : String) : Option URL :=
  match target.data with
  | '/' :: _ =>
    if target.data.any (fun c => c.toNat < 32 ∨ c.toNat = 127) then none
    else
      let raw := target.data.takeWhile (fun c => c ≠ '?')
      let query := (target.data.dropWhile (fun c => c ≠ '?')).drop 1
      (unescape raw).map (fun p => { Path := String.mk p, RawQuery := String.mk query })
  | _ =>
    if target.data.any (fun c => c.toNat < 32 ∨ c.toNat = 127) then none
    else parseAbsolute target.data

end url

/-- Go `error` values that reach the handlers. -/
inductive GoError where
  | num (e : strconv.NumError)
  | other (text : String)
  deriving DecidableEq, Repr

namespace http

/-- Go `http.Header` with one value per (canonical) key, newest entry first. -/
abbrev Header := List (String × String)

/-- `Header.Get`: the value stored under the key, the empty string if none. -/
def Header.Get (h : Header) (key : String) : String :=
  match h.find? (fun kv => kv.1 = key) with
  | some kv => kv.2
  | none => ""

/-- `Header.Set`: replaces whatever was stored under the key. -/
def Header.Set (h : Header) (key value : String) : Header :=
  (key, value) :: h.filter (fun kv => kv.1 ≠ key)

/-- Values that `encoding/json` writes: the JSON documents of the responses. -/
inductive JSON where
  | null
  | num (n : Int)
  | str (s : String)
  | arr (items : List JSON)
  | obj (fields : List (String × JSON))
  deriving Repr

/-- Go `context.Context` restricted to its key/value pairs, newest first. -/
abbrev Context := List (Int × String)

/-- `ctx.Value(key)` followed by the `.(string)` assertion. -/
def Context.Value (ctx : Context) (key : Int) : Option String :=
  (ctx.find? (fun kv => kv.1 = key)).map (fun kv => kv.2)

/-- `context.WithValue(ctx, key, value)`. -/
def Context.WithValue (ctx : Context) (key : Int) (value : String) : Context :=
  (key, value) :: ctx

/-- The fields of `http.Request` the program reads. -/
structure Request where
  Method : String
  RequestURI : String
  URL : url.URL
  Header : Header
  Body : String
  RemoteAddr : String
  Proto : String
  ctx : Context
  deriving DecidableEq, Repr

/-- `r.UserAgent()`. -/
def Request.UserAgent (r : Request) : String := r.Header.Get "User-Agent"

/-- `r.WithContext(ctx)`. -/
def Request.WithContext (r : Request) (ctx : Context) : Request := { r with ctx := ctx }

/-- State of an `http.ResponseWriter`.  `header` is the map returned by
`w.Header()`; `WriteHeader` fixes the status and the headers that are sent
(`sentHeader`), so later changes of `header` no longer reach the client;
`body` lists the documents passed to `w.Write`. -/
structure ResponseWriter where
  header : Header
  wroteHeader : Bool
  status : Nat
  sentHeader : Header
  body : List JSON

/-- `w.Header().Set(key, value)`. -/
def ResponseWriter.HeaderSet (w : ResponseWriter) (key value : String) : ResponseWriter :=
  { w with header := w.header.Set key value }

/-- `w.WriteHeader(status)`: the first call sends the status line with the
current headers, any further call is ignored. -/
def ResponseWriter.WriteHeader (w : ResponseWriter) (status : Nat) : ResponseWriter :=
  if w.wroteHeader then w
  else { w with wroteHeader := true, status := status, sentHeader := w.header }

/-- `w.Write(data)`: sends the header with status 200 first if none was sent. -/
def ResponseWriter.Write (w : ResponseWriter) (data : JSON) : ResponseWriter :=
  let w1 := if w.wroteHeader then w else w.WriteHeader 200
  { w1 with body := w1.body ++ [data] }

/-- Go `httptest.NewRecorder()`: nothing set, nothing written. -/
def NewRecorder : ResponseWriter :=
  { header := [], wroteHeader := false, status := 200, sentHeader := [], body := [] }

/-- Go `httptest.NewRequest(method, target, body)`: the request that
`http.ReadRequest` builds for the request line `method target HTTP/1.1`. -/
def NewRequest (method target body : String) : Option Request :=
  (url.ParseRequestURI target).map fun u =>
    { Method := method, RequestURI := target, URL := u, Header := [], Body := body,
      RemoteAddr := "192.0.2.1:1234", Proto := "HTTP/1.1", ctx := [] }

/-- Patterns registered on the `ServeMux` by `initHTTPHandler`. -/
inductive Route where
  | messages
  | conversations
  | healthz
  deriving DecidableEq, Repr

/-- `ServeMux.match` for the three registered patterns: an exact match first,
then the longest pattern ending in a slash that the path starts with. -/
def muxMatch (path : String) : Option Route :=
  if path = "/messages/" then some .messages
  else if path = "/conversations/" then some .conversations
  else if path = "/healthz" then some .healthz
  else if "/conversations/".data.isPrefixOf path.data then some .conversations
  else if "/messages/".data.isPrefixOf path.data then some .messages
  else none

end http

open http

/-- Key type `key int` with its one constant. -/
def requestIDKey : Int := 0

/-- Go `Message` struct; the zero value has empty strings and `ConversationID = 0`. -/
structure Message where
  Sender : String
  ConversationID : Int
  Message : String
  Created : String
  deriving DecidableEq, Repr

/-- Go `Conversation` struct; `Messages` is a slice, `none` being the nil slice. -/
structure Conversation where
  ID : Int
  Messages : Option (List Message)
  deriving DecidableEq, Repr

/-- Value of a `TIMESTAMP` column as `database/sql` hands it to a string
destination (its RFC 3339 text), which is never empty. -/
structure Timestamp where
  text : String
  nonempty : text ≠ ""
  deriving DecidableEq

/-- One row of table `messages`.  The `id` column is assigned by the database
and read by no statement of the program, so it is not represented. -/
structure Row where
  sender : String
  conversation_id : Int
  message : String
  created : Timestamp
  deriving DecidableEq

/-- The two statements the program sends to the database, with their parameters. -/
inductive Stmt where
  | insert (sender : String) (conversation_id : Int) (message : String)
  | select (conversation_id : Int)
  deriving DecidableEq, Repr

/-- One call of the logger, by its operands. -/
inductive LogLine where
  | printf (message : String) (err : Option GoError)
  | println (operands : List String)
  deriving DecidableEq, Repr

/-- What the environment decides while one request is served: the result of
decoding the body with `encoding/json`, whether the database reports an error
for the statement (constraint violation, lost connection, ...), the value of
`CURRENT_TIMESTAMP`, and the clock reading of `time.Now().UnixNano()`. -/
structure Env where
  decode : String → Except GoError Message
  execErr : Option GoError
  selectErr : Option GoError
  now : Timestamp
  unixNano : Nat

/-- The program state a handler can touch: the rows of table `messages`, the
statements sent to the database so far, the logger output, the global
`healthy` flag, and the response writer of the request being served. -/
structure State where
  rows : List Row
  stmts : List Stmt
  log : List LogLine
  healthy : Int
  w : ResponseWriter

/-- How a handler call ends: it returns, or it panics (run-time error). -/
inductive Outcome where
  | returned (st : State)
  | panicked (st : State)

/-- The state a handler call ends in. -/
def Outcome.state : Outcome → State
  | .returned st => st
  | .panicked st => st

/-- An `http.Handler` of this program. -/
abbrev Handler := State → Request → Outcome

/-- Arguments passed as `payload interface{}` to `respondWithJSON`. -/
inductive Payload where
  | stringMap (entries : List (String × String))
  | conversation (conv : Conversation)
  deriving DecidableEq, Repr

/-- `json.Marshal` of a `Message`, following its struct tags: `conversation_id`
and `created` carry `omitempty` and are left out when zero / empty. -/
def marshalMessage (m : Message) : JSON :=
  .obj ([("sender", JSON.str m.Sender)]
    ++ (if m.ConversationID = 0 then [] else [("conversation_id", JSON.num m.ConversationID)])
    ++ [("message", JSON.str m.Message)]
    ++ (if m.Created = "" then [] else [("created", JSON.str m.Created)]))

/-- `json.Marshal` of a `Conversation`: a nil slice is written as `null`. -/
def marshalConversation (c : Conversation) : JSON :=
  .obj [("id", JSON.num c.ID),
        ("messages", match c.Messages with
                     | none => JSON.null
                     | some ms => JSON.arr (ms.map marshalMessage))]

/-- `json.Marshal(payload)` (a string map is given with its keys in order). -/
def Marshal : Payload → JSON
  | .stringMap entries => .obj (entries.map fun kv => (kv.1, JSON.str kv.2))
  | .conversation conv => marshalConversation conv

/-- Assignment of a string to the column `sender VARCHAR(32)` (PostgreSQL): a
string of at most 32 characters is stored as it is; a longer one is an error,
unless its excess characters are all spaces, in which case it is cut to 32
characters. -/
def varchar32 (s : String) : Except GoError String :=
  if s.length ≤ 32 then .ok s
  else if (s.data.drop 32).all (fun c => c = ' ') then .ok (String.mk (s.data.take 32))
  else .error (.other "pq: value too long for type character varying(32)")

/-- `db.NamedExec(insertQuery, msg)`: sends the insert of `:sender`,
`:conversation_id`, `:message`.  It fails when the environment says so or when
the sender does not fit its column; on success one row is appended, with the
sender as the column stores it and `created` defaulting to the current
timestamp. -/
def NamedExec (env : Env) (st : State) (msg : Message) : State × Option GoError :=
  let st1 := { st with stmts := st.stmts ++ [Stmt.insert msg.Sender msg.ConversationID msg.Message] }
  match env.execErr with
  | some err => (st1, some err)
  | none =>
    match varchar32 msg.Sender with
    | .error err => (st1, some err)
    | .ok sender =>
      ({ st1 with rows := st1.rows ++ [{ sender := sender,
                                         conversation_id := msg.ConversationID,
                                         message := msg.Message,
                                         created := env.now }] }, none)

/-- The `Message` scanned from a row by `SELECT sender,message,created`. -/
def Row.scan (row : Row) : Message :=
  { Sender := row.sender, ConversationID := 0, Message := row.message, Created := row.created.text }

/-- `db.Select(&dest, selectQuery, id)`: sends the select; on success the
scanned rows with `conversation_id = id` are appended to `dest` (a nil `dest`
stays nil when no row matches). -/
def Select (env : Env) (st : State) (dest : Option (List Message)) (id : Int) :
    State × Option (List Message) × Option GoError :=
  let st1 := { st with stmts := st.stmts ++ [Stmt.select id] }
  match env.selectErr with
  | some err => (st1, dest, some err)
  | none =>
    let found := (st.rows.filter (fun row => row.conversation_id = id)).map Row.scan
    match dest, found with
    | none, [] => (st1, none, none)
    | _, _ => (st1, some (dest.getD [] ++ found), none)

/-- Function `respondWithJSON`: sets the two headers, writes the status, writes the body. -/
def respondWithJSON (st : State) (status : Nat) (payload : Payload) : State :=
  let response := Marshal payload
  let w := st.w.HeaderSet "Content-Type" "application/json; charset=utf-8"
  let w := w.HeaderSet "X-Content-Type-Options" "nosniff"
  let w := w.WriteHeader status
  { st with w := w.Write response }

/-- Function `respondWithError`: logs the message (with the error when there is
one) and responds with the message alone. -/
def respondWithError (st : State) (status : Nat) (message : String) (err : Option GoError) :
    State :=
  let st1 := { st with log := st.log ++ [LogLine.printf message err] }
  respondWithJSON st1 status (.stringMap [("error", message)])

/-- Function `messagesHandler`: posting a new message. -/
def messagesHandler (env : Env) : Handler := fun st r =>
  if r.Method ≠ "POST" then
    .returned (respondWithError st 405 "Only POST is allowed" none)
  else
    match env.decode r.Body with
    | .error err => .returned (respondWithError st 400 "Invalid JSON body" (some err))
    | .ok msg =>
      if msg.ConversationID < 1 then
        .returned (respondWithError st 400 "Invalid conversation ID" none)
      else
        match NamedExec env st msg with
        | (st1, some err) =>
          .returned (respondWithError st1 500 "Failed to post message" (some err))
        | (st1, none) =>
          .returned (respondWithJSON st1 200 (.stringMap [("message", "Message posted")]))

/-- The pair `(value, err)` that Go `strconv.Atoi` returns. -/
def atoiPair (s : String) : Int × Option GoError :=
  match strconv.Atoi s with
  | .ok n => (n, none)
  | .error e => (0, some (GoError.num e))

/-- Function `conversationsHandler`: retrieving a conversation by ID.  Indexing
the split request URI at `[2]` panics when it has fewer than three pieces. -/
def conversationsHandler (env : Env) : Handler := fun st r =>
  if r.Method ≠ "GET" then
    .returned (respondWithError st 405 "Only GET is allowed" none)
  else
    match (strings.Split r.RequestURI '/')[2]? with
    | none => .panicked st
    | some segment =>
      let (ConvID, err) := atoiPair segment
      if err ≠ none ∨ ConvID < 1 then
        .returned (respondWithError st 404 "Invalid conversation ID" err)
      else
        let conv : Conversation := { ID := ConvID, Messages := some [] }
        match Select env st conv.Messages conv.ID with
        | (st1, _, some err) =>
          .returned (respondWithError st1 500 "Failed to retrieve conversation" (some err))
        | (st1, messages, none) =>
          .returned (respondWithJSON st1 200 (.conversation { conv with Messages := messages }))

/-- Function `healthzHandler`: the health check. -/
def healthzHandler : Handler := fun st _ =>
  if st.healthy = 1 then
    .returned (respondWithJSON st 200 (.stringMap [("status", "OK")]))
  else
    let st1 := { st with w := st.w.WriteHeader 503 }
    .returned (respondWithError st1 503 "Unhealthy" none)

/-- Function `logging`: calls the next handler, then (deferred, so also when
the handler panics) logs one line starting with the request ID of the context. -/
def logging (next : Handler) : Handler := fun st r =>
  let line (s : State) : State :=
    let requestID := match r.ctx.Value requestIDKey with
      | some v => v
      | none => "unknown"
    { s with log := s.log ++ [LogLine.println
        [requestID, r.RemoteAddr, r.Method, r.URL.Path, r.Proto, r.UserAgent]] }
  match next st r with
  | .returned s => .returned (line s)
  | .panicked s => .panicked (line s)

/-- Function `tracing`: takes the request ID from the request header or mints
one, stores it in the context and in the response header, calls the next handler. -/
def tracing (nextRequestID : Unit → String) (next : Handler) : Handler := fun st r =>
  let requestID := r.Header.Get "X-Request-Id"
  let requestID := if requestID = "" then nextRequestID () else requestID
  let ctx := r.ctx.WithValue requestIDKey requestID
  let st1 := { st with w := st.w.HeaderSet "X-Request-Id" requestID }
  next st1 (r.WithContext ctx)

/-- The `nextRequestID` closure of `initHTTPHandler`: the clock reading in decimal. -/
def nextRequestID (env : Env) : Unit → String := fun _ => strconv.Itoa env.unixNano

/-- The handler registered under a pattern by `initHTTPHandler`. -/
def routeHandler (env : Env) : Route → Handler
  | .messages => messagesHandler env
  | .conversations => conversationsHandler env
  | .healthz => healthzHandler

/-- The chain `tracing(nextRequestID)(logging(logger)(mux))` of
`initHTTPHandler`, for a request that the mux dispatches to `route`. -/
def initHTTPHandler (env : Env) (route : Route) : Handler :=
  tracing (nextRequestID env) (logging (routeHandler env route))

/-- The error document `{"error": message}` of `respondWithError`. -/
def errorJSON (message : String) : JSON := .obj [("error", JSON.str message)]

/-- A message as a response shows it: sender, message and created, no
`conversation_id` field. -/
def renderedMessage (sender message created : String) : JSON :=
  .obj [("sender", JSON.str sender), ("message", JSON.str message), ("created", JSON.str created)]

/-- The conversation document `{"id": n, "messages": [...]}`. -/
def conversationJSON (n : Int) (messages : List JSON) : JSON :=
  .obj [("id", JSON.num n), ("messages", JSON.arr messages)]

/-- A response writer on which nothing has been written yet. -/
def Unwritten (w : ResponseWriter) : Prop := w.wroteHeader = false ∧ w.body = []

/-- The request ID that `tracing` settles on: the request header if it is
non-empty, else the minted value. -/
def tracedID (env : Env) (r : Request) : String :=
  if r.Header.Get "X-Request-Id" = "" then nextRequestID env () else r.Header.Get "X-Request-Id"

/-! ## Sample inputs (the data of `main_test.go`) -/

/-- A sample timestamp. -/
def sampleTime : Timestamp := ⟨"2019-05-01T10:00:00Z", by decide⟩

/-- The three rows inserted by `TestGetConversations`. -/
def sampleRows : List Row :=
  [⟨"anson", 1234, "I'm a teapot", sampleTime⟩,
   ⟨"david", 1234, "Short and stout", sampleTime⟩,
   ⟨"mrs.potts", 4321, "Now, Chip, I won't have you making up such wild stories.", sampleTime⟩]

/-- A state with the three sample rows, a healthy process and a new recorder. -/
def sampleState : State :=
  { rows := sampleRows, stmts := [], log := [], healthy := 1, w := NewRecorder }

/-- The state of `TestPostMessages`: an empty table. -/
def emptyState : State :=
  { rows := [], stmts := [], log := [], healthy := 1, w := NewRecorder }

/-- An environment in which the body decodes to `msg` and the database works. -/
def sampleEnv (msg : Message) : Env :=
  { decode := fun _ => .ok msg, execErr := none, selectErr := none,
    now := sampleTime, unixNano := 1556704800000000000 }

/-- An environment in which the database reports an error for every statement. -/
def failingEnv (msg : Message) : Env :=
  { sampleEnv msg with execErr := some (.other "pq: connection refused"),
                       selectErr := some (.other "pq: connection refused") }

/-- The message of `TestPostMessages`. -/
def teapot : Message := ⟨"anson", 1234, "I'm a teapot", ""⟩

/-- The message of `TestPostMessagesWithoutConversationID` (the zero ID). -/
def teapotNoID : Message := ⟨"anson", 0, "I'm a teapot", ""⟩

/-- A request with the given method and request target and an empty body; the
URL is parsed from the target when the target is in origin form. -/
def sampleRequest (method target : String) : Request :=
  { Method := method, RequestURI := target,
    URL := (url.ParseRequestURI target).getD ⟨target, ""⟩, Header := [], Body := "",
    RemoteAddr := "192.0.2.1:1234", Proto := "HTTP/1.1", ctx := [] }

/-- The rows of conversation `n`, as the response shows them. -/
def renderedRows (rows : List Row) (n : Int) : List JSON :=
  (rows.filter (fun row => row.conversation_id = n)).map
    (fun row => renderedMessage row.sender row.message row.created.text)

/-- The identifier segment is rejected by the handler: it is empty, does not
parse as an integer, or parses to an integer below 1. -/
def InvalidIdentifier (segment : String) : Prop :=
  segment = "" ∨ (∃ e, strconv.Atoi segment = .error e) ∨
    (∃ n, strconv.Atoi segment = .ok n ∧ n < 1)

/-- The final state `st'` comes from one call of `respondWithJSON` on a state
whose response writer is that of `st`. -/
def Responded (st st' : State) : Prop :=
  ∃ st1 status payload, st1.w = st.w ∧ st' = respondWithJSON st1 status payload

/-- A POST to `/messages/` that carries the header `X-Request-Id: abc`. -/
def tracedRequest : Request :=
  { sampleRequest "POST" "/messages/" with Header := [("X-Request-Id", "abc")] }

/-- The sender as the column `sender VARCHAR(32)` holds it after a successful
insert: its first 32 characters. -/
def storedSender (s : String) : String := String.mk (s.data.take 32)

/-- The identifier segment of a URL path: the text after `/conversations/` up
to the next slash. -/
def identifierSegment (path : String) : Option String :=
  if "/conversations/".data.isPrefixOf path.data then
    some (String.mk ((path.data.drop 15).takeWhile (fun c => c ≠ '/')))
  else none

/-- An environment in which the insert works and the select fails. -/
def selectFailingEnv (msg : Message) : Env :=
  { sampleEnv msg with selectErr := some (.other "pq: connection refused") }

/-- The message of `TestPostMessages` with the sender padded with spaces to 35
characters. -/
def paddedTeapot : Message :=
  ⟨"anson" ++ String.mk (List.replicate 30 ' '), 1234, "I'm a teapot", ""⟩

/-! ## Library lemmas: splitting and number parsing -/

namespace strings

theorem splitChars_ne_nil (sep : Char) (l : List Char) : splitChars sep l ≠ [] := by
  cases l with
  | nil => simp [splitChars]
  | cons c cs =>
    simp only [splitChars]
    split
    · simp
    · split <;> simp

theorem splitChars_of_not_mem (sep : Char) (a : List Char) (h : sep ∉ a) :
    splitChars sep a = [a] := by
  induction a with
  | nil => rfl
  | cons c cs ih =>
    have hc : c ≠ sep := fun e => h (by simp [e])
    have hcs : sep ∉ cs := fun e => h (List.mem_cons_of_mem _ e)
    simp [splitChars, hc, ih hcs]

theorem splitChars_append_sep (sep : Char) (a b : List Char) (h : sep ∉ a) :
    splitChars sep (a ++ sep :: b) = a :: splitChars sep b := by
  induction a with
  | nil => simp [splitChars]
  | cons c cs ih =>
    have hc : c ≠ sep := fun e => h (by simp [e])
    have hcs : sep ∉ cs := fun e => h (List.mem_cons_of_mem _ e)
    simp [splitChars, hc, ih hcs]

/-- Element `[2]` of the split of `/conversations/<segment><rest>` is the
segment, when the segment has no slash and the rest is empty or starts with one. -/
theorem Split_conversations (segment rest : String) (hseg : '/' ∉ segment.data)
    (hrest : rest = "" ∨ rest.data.head? = some '/') :
    (Split ("/conversations/" ++ segment ++ rest) '/')[2]? = some segment := by
  have h1 : ("/conversations/" ++ segment ++ rest).data
      = [] ++ '/' :: ("conversations".data ++ '/' :: (segment.data ++ rest.data)) := by
    simp [String.data_append]
  have hconv : '/' ∉ "conversations".data := by decide
  unfold Split
  rw [h1, splitChars_append_sep _ _ _ (by simp), splitChars_append_sep _ _ _ hconv]
  rcases hrest with h | h
  · subst h
    simp [splitChars_of_not_mem _ _ hseg]
  · obtain ⟨rd⟩ := rest
    cases rd with
    | nil => simp at h
    | cons c cs =>
      simp at h
      subst h
      simp [splitChars_append_sep _ _ _ hseg]

end strings

namespace strconv

theorem digitChar_toNat (d : Nat) (h : d < 10) : (digitChar d).toNat = 48 + d := by
  interval_cases d <;> rfl

theorem digitVal_digitChar (d : Nat) (h : d < 10) : digitVal (digitChar d) = some d := by
  simp [digitVal, digitChar_toNat d h]
  omega

/-- Every character of the decimal text is a digit character. -/
theorem digitsRev_digits (fuel : Nat) : ∀ n c, c ∈ digitsRev fuel n → ∃ d, d < 10 ∧ c = digitChar d := by
  induction fuel with
  | zero => intro n c h; simp [digitsRev] at h
  | succ fuel ih =>
    intro n c h
    unfold digitsRev at h
    split at h
    · simp at h
      exact ⟨n, by assumption, h⟩
    · simp at h
      rcases h with h | h
      · exact ⟨n % 10, Nat.mod_lt _ (by norm_num), h⟩
      · exact ih _ _ h

theorem digitsRev_ne_nil (fuel n : Nat) : digitsRev (fuel + 1) n ≠ [] := by
  unfold digitsRev
  split <;> simp

/-- Reading back the decimal text in front of `rest` leaves the number in the
accumulator. -/
theorem parseUint_digitsRev (fuel : Nat) : ∀ (n : Nat) (rest : List Char), n < fuel → n < 2 ^ 64 →
    parseUint ((digitsRev fuel n).reverse ++ rest) 0 = parseUint rest n := by
  induction fuel with
  | zero => intro n rest h; omega
  | succ fuel ih =>
    intro n rest hfuel hn
    unfold digitsRev
    split
    · rename_i h10
      simp [parseUint, digitVal_digitChar n h10]
      omega
    · rename_i h10
      have hq : n / 10 < fuel := by omega
      have hq2 : n / 10 < 2 ^ 64 := by omega
      simp only [List.reverse_cons, List.append_assoc, List.singleton_append]
      rw [ih (n / 10) _ hq hq2]
      have hm : n % 10 < 10 := Nat.mod_lt _ (by norm_num)
      have hsum : n / 10 * 10 + n % 10 = n := by omega
      simp [parseUint, digitVal_digitChar _ hm, hsum]
      omega

theorem Itoa_data (n : Nat) : (Itoa n).data = (digitsRev (n + 1) n).reverse := rfl

/-- The decimal text contains only digit characters. -/
theorem Itoa_digits (n : Nat) (c : Char) (h : c ∈ (Itoa n).data) : ∃ d, d < 10 ∧ c = digitChar d := by
  rw [Itoa_data] at h
  exact digitsRev_digits _ _ _ (List.mem_reverse.mp h)

theorem digitChar_ne (d : Nat) (h : d < 10) (c : Char) (hc : digitVal c = none) : digitChar d ≠ c := by
  intro e
  rw [← e, digitVal_digitChar d h] at hc
  cases hc

theorem Itoa_not_mem (n : Nat) (c : Char) (hc : digitVal c = none) : c ∉ (Itoa n).data := by
  intro h
  obtain ⟨d, hd, e⟩ := Itoa_digits n c h
  exact digitChar_ne d hd c hc e.symm

/-- Round trip: `Atoi` reads the decimal text of `n` back as `n`, for `n`
within the range of `int`. -/
theorem Atoi_Itoa (n : Nat) (h : (n : Int) ≤ maxInt) : Atoi (Itoa n) = .ok (n : Int) := by
  have hn : n < 2 ^ 63 := by
    have : (n : Int) < 2 ^ 63 := by
      have h2 : maxInt = 2 ^ 63 - 1 := rfl
      rw [h2] at h
      omega
    exact_mod_cast this
  have hp : parseUint (Itoa n).data 0 = .ok n := by
    have := parseUint_digitsRev (n + 1) n [] (by omega) (by omega)
    simpa [Itoa_data, parseUint] using this
  have hne : (Itoa n).data ≠ [] := by
    rw [Itoa_data]
    simpa using digitsRev_ne_nil n n
  unfold Atoi parseInt
  cases hd : (Itoa n).data with
  | nil => exact absurd hd hne
  | cons c cs =>
    have hmem : c ∈ (Itoa n).data := by rw [hd]; simp
    have hminus : c ≠ '-' := fun e => Itoa_not_mem n '-' (by decide) (e ▸ hmem)
    have hplus : c ≠ '+' := fun e => Itoa_not_mem n '+' (by decide) (e ▸ hmem)
    rw [hd] at hp
    have hlt : ¬ 9223372036854775808 ≤ n := by
      have h63 : (2 : Nat) ^ 63 = 9223372036854775808 := by norm_num
      omega
    simp [hminus, hplus, hp, hlt]

/-- The digit loop succeeds only on digits. -/
theorem parseUint_ok_digits : ∀ (l : List Char) (n m : Nat), parseUint l n = .ok m →
    ∀ c ∈ l, digitVal c ≠ none := by
  intro l
  induction l with
  | nil => intro n m _ c hc; simp at hc
  | cons d ds ih =>
    intro n m h c hc
    unfold parseUint at h
    cases hd : digitVal d with
    | none => simp [hd] at h
    | some v =>
      simp only [hd] at h
      split at h
      · cases h
      · rcases List.mem_cons.mp hc with rfl | hmem
        · simp [hd]
        · exact ih _ _ h c hmem

/-- A text that `Atoi` accepts consists of decimal digits and signs only. -/
theorem Atoi_ok_chars (s : String) (n : Int) (h : Atoi s = .ok n) :
    ∀ c ∈ s.data, digitVal c ≠ none ∨ c = '+' ∨ c = '-' := by
  unfold Atoi at h
  cases hp : parseInt s.data with
  | error e => simp [hp] at h
  | ok v =>
    intro c hc
    unfold parseInt at hp
    cases hd : s.data with
    | nil => simp [hd] at hc
    | cons d ds =>
      rw [hd] at hp hc
      simp only at hp
      by_cases hsign : d = '-' ∨ d = '+'
      · simp only [hsign, if_true] at hp
        cases ds with
        | nil => simp at hp
        | cons e es =>
          simp only at hp
          cases hu : parseUint (e :: es) 0 with
          | error err => simp [hu] at hp
          | ok un =>
            rcases List.mem_cons.mp hc with rfl | hmem
            · rcases hsign with h1 | h1
              · exact Or.inr (Or.inr h1)
              · exact Or.inr (Or.inl h1)
            · exact Or.inl (parseUint_ok_digits _ _ _ hu c hmem)
      · simp only [hsign, if_false] at hp
        cases hu : parseUint (d :: ds) 0 with
        | error err => simp [hu] at hp
        | ok un => exact Or.inl (parseUint_ok_digits _ _ _ hu c hc)

/-- What `Atoi` makes of some identifier texts: a sign is allowed, leading
zeros are, letters, the empty text and values outside `int` are not. -/
theorem Atoi_samples :
    Atoi "1234" = .ok 1234 ∧ Atoi "+5" = .ok 5 ∧ Atoi "007" = .ok 7 ∧ Atoi "-3" = .ok (-3) ∧
    Atoi "0" = .ok 0 ∧
    Atoi "" = .error ⟨"Atoi", "", .invalid⟩ ∧
    Atoi "abc" = .error ⟨"Atoi", "abc", .invalid⟩ ∧
    Atoi "12?x=1" = .error ⟨"Atoi", "12?x=1", .invalid⟩ ∧
    Atoi "+" = .error ⟨"Atoi", "+", .invalid⟩ ∧
    Atoi "1_000" = .error ⟨"Atoi", "1_000", .invalid⟩ ∧
    Atoi "9223372036854775807" = .ok 9223372036854775807 ∧
    Atoi "9223372036854775808" = .error ⟨"Atoi", "9223372036854775808", .outOfRange⟩ ∧
    Atoi "-9223372036854775808" = .ok (-9223372036854775808) := by
  decide

end strconv

/-! ## The responders -/

theorem Header.Get_Set_same (h : Header) (key value : String) :
    (h.Set key value).Get key = value := by
  simp [Header.Get, Header.Set]

theorem Header.Get_Set_ne (h : Header) (key other value : String) (hne : other ≠ key) :
    (h.Set key value).Get other = h.Get other := by
  have hne2 : ¬ key = other := fun e => hne e.symm
  have hpred : (fun a : String × String => !decide (a.1 = key) && decide (a.1 = other))
      = (fun kv => decide (kv.1 = other)) := by
    funext a
    by_cases h2 : a.1 = other
    · simp [h2, hne]
    · simp [h2]
  simp [Header.Get, Header.Set, List.find?, hne2, List.find?_filter, hpred]

/-- On a writer whose header is not yet written, `respondWithJSON` sends the
status with both headers in place and appends the marshalled payload. -/
theorem respondWithJSON_unwritten (st : State) (status : Nat) (payload : Payload)
    (hw : st.w.wroteHeader = false) :
    (respondWithJSON st status payload).w.status = status ∧
    (respondWithJSON st status payload).w.wroteHeader = true ∧
    (respondWithJSON st status payload).w.body = st.w.body ++ [Marshal payload] ∧
    (respondWithJSON st status payload).w.sentHeader =
      (st.w.header.Set "Content-Type" "application/json; charset=utf-8").Set
        "X-Content-Type-Options" "nosniff" := by
  simp [respondWithJSON, ResponseWriter.Write, ResponseWriter.WriteHeader,
    ResponseWriter.HeaderSet, hw]

/-- The responders touch neither the table nor the statement trace nor the flag. -/
theorem respondWithJSON_store (st : State) (status : Nat) (payload : Payload) :
    (respondWithJSON st status payload).rows = st.rows ∧
    (respondWithJSON st status payload).stmts = st.stmts ∧
    (respondWithJSON st status payload).log = st.log ∧
    (respondWithJSON st status payload).healthy = st.healthy :=
  ⟨rfl, rfl, rfl, rfl⟩

theorem respondWithError_unwritten (st : State) (status : Nat) (message : String)
    (err : Option GoError) (hw : st.w.wroteHeader = false) :
    (respondWithError st status message err).w.status = status ∧
    (respondWithError st status message err).w.wroteHeader = true ∧
    (respondWithError st status message err).w.body = st.w.body ++ [errorJSON message] ∧
    (respondWithError st status message err).w.sentHeader =
      (st.w.header.Set "Content-Type" "application/json; charset=utf-8").Set
        "X-Content-Type-Options" "nosniff" := by
  have h := respondWithJSON_unwritten
    { st with log := st.log ++ [LogLine.printf message err] } status
    (.stringMap [("error", message)]) hw
  simpa [respondWithError, Marshal, errorJSON] using h

theorem respondWithError_store (st : State) (status : Nat) (message : String)
    (err : Option GoError) :
    (respondWithError st status message err).rows = st.rows ∧
    (respondWithError st status message err).stmts = st.stmts ∧
    (respondWithError st status message err).healthy = st.healthy :=
  ⟨rfl, rfl, rfl⟩

/-! ## The create-message endpoint -/

/-- C1: a POST whose body decodes into a Message with `conversation_id` absent
(the zero value), zero or negative is answered 400 with the body
`{"error":"Invalid conversation ID"}`; the table is unchanged and no statement
is sent to the database. -/
theorem messagesHandler_rejects_invalid_conversation_id (env : Env) (st : State) (r : Request)
    (msg : Message) (hmethod : r.Method = "POST") (hdecode : env.decode r.Body = .ok msg)
    (hid : msg.ConversationID < 1) (hw : Unwritten st.w) :
    ∃ st', messagesHandler env st r = .returned st' ∧
      st'.w.status = 400 ∧ st'.w.body = [errorJSON "Invalid conversation ID"] ∧
      st'.rows = st.rows ∧ st'.stmts = st.stmts := by
  obtain ⟨hwh, hwb⟩ := hw
  have h := respondWithError_unwritten st 400 "Invalid conversation ID" none hwh
  refine ⟨respondWithError st 400 "Invalid conversation ID" none, ?_, h.1, ?_, rfl, rfl⟩
  · simp [messagesHandler, hmethod, hdecode, hid]
  · simpa [hwb] using h.2.2.1

/-- C1 at the request of `TestPostMessagesWithoutConversationID`. -/
theorem messagesHandler_rejects_invalid_conversation_id_witness :
    ∃ st', messagesHandler (sampleEnv teapotNoID) sampleState (sampleRequest "POST" "/messages/")
        = .returned st' ∧
      st'.w.status = 400 ∧ st'.w.body = [errorJSON "Invalid conversation ID"] ∧
      st'.rows = sampleState.rows ∧ st'.stmts = sampleState.stmts :=
  messagesHandler_rejects_invalid_conversation_id (sampleEnv teapotNoID) sampleState
    (sampleRequest "POST" "/messages/") teapotNoID rfl rfl (by decide) ⟨rfl, rfl⟩

/-- C5: a request with another method than POST to `messagesHandler`, or
another method than GET to `conversationsHandler`, is answered 405 with an
`{"error": ...}` body whatever its body and request URI are (the environment
that decodes the body and the request URI are arbitrary); the table is
unchanged and no statement is sent to the database. -/
theorem handlers_reject_other_methods (env : Env) (st : State) (r : Request)
    (hw : Unwritten st.w) :
    (r.Method ≠ "POST" →
      ∃ st', messagesHandler env st r = .returned st' ∧
        st'.w.status = 405 ∧ st'.w.body = [errorJSON "Only POST is allowed"] ∧
        st'.rows = st.rows ∧ st'.stmts = st.stmts) ∧
    (r.Method ≠ "GET" →
      ∃ st', conversationsHandler env st r = .returned st' ∧
        st'.w.status = 405 ∧ st'.w.body = [errorJSON "Only GET is allowed"] ∧
        st'.rows = st.rows ∧ st'.stmts = st.stmts) := by
  obtain ⟨hwh, hwb⟩ := hw
  constructor
  · intro hm
    have h := respondWithError_unwritten st 405 "Only POST is allowed" none hwh
    refine ⟨respondWithError st 405 "Only POST is allowed" none, ?_, h.1, ?_, rfl, rfl⟩
    · simp [messagesHandler, hm]
    · simpa [hwb] using h.2.2.1
  · intro hm
    have h := respondWithError_unwritten st 405 "Only GET is allowed" none hwh
    refine ⟨respondWithError st 405 "Only GET is allowed" none, ?_, h.1, ?_, rfl, rfl⟩
    · simp [conversationsHandler, hm]
    · simpa [hwb] using h.2.2.1

/-- C5 at a PUT request whose target has no identifier and whose body would
decode to a valid message. -/
theorem handlers_reject_other_methods_witness :
    (∃ st', messagesHandler (sampleEnv teapot) sampleState (sampleRequest "PUT" "x")
        = .returned st' ∧
      st'.w.status = 405 ∧ st'.w.body = [errorJSON "Only POST is allowed"] ∧
      st'.rows = sampleState.rows ∧ st'.stmts = sampleState.stmts) ∧
    (∃ st', conversationsHandler (sampleEnv teapot) sampleState (sampleRequest "PUT" "x")
        = .returned st' ∧
      st'.w.status = 405 ∧ st'.w.body = [errorJSON "Only GET is allowed"] ∧
      st'.rows = sampleState.rows ∧ st'.stmts = sampleState.stmts) :=
  ⟨(handlers_reject_other_methods (sampleEnv teapot) sampleState (sampleRequest "PUT" "x")
      ⟨rfl, rfl⟩).1 (by decide),
   (handlers_reject_other_methods (sampleEnv teapot) sampleState (sampleRequest "PUT" "x")
      ⟨rfl, rfl⟩).2 (by decide)⟩

/-! ## The fetch-conversation endpoint -/

/-- A scanned row is written with sender, message and created only. -/
theorem marshalMessage_scan (row : Row) :
    marshalMessage row.scan = renderedMessage row.sender row.message row.created.text := by
  simp [marshalMessage, Row.scan, renderedMessage, row.created.nonempty]

/-- The success path of `conversationsHandler`: one select is sent and the
matching rows are written. -/
theorem conversationsHandler_found (env : Env) (st : State) (r : Request) (segment : String)
    (n : Int) (hmethod : r.Method = "GET")
    (hseg : (strings.Split r.RequestURI '/')[2]? = some segment)
    (hatoi : strconv.Atoi segment = .ok n) (hn : 1 ≤ n) (hselect : env.selectErr = none)
    (hw : Unwritten st.w) :
    ∃ st', conversationsHandler env st r = .returned st' ∧
      st'.w.status = 200 ∧ st'.w.body = [conversationJSON n (renderedRows st.rows n)] ∧
      st'.rows = st.rows ∧ st'.stmts = st.stmts ++ [Stmt.select n] := by
  obtain ⟨hwh, hwb⟩ := hw
  have hn2 : ¬ n < 1 := by omega
  let found := (st.rows.filter (fun row => row.conversation_id = n)).map Row.scan
  let st1 : State := { st with stmts := st.stmts ++ [Stmt.select n] }
  have hrun : conversationsHandler env st r
      = .returned (respondWithJSON st1 200 (.conversation { ID := n, Messages := some found })) := by
    simp [conversationsHandler, hmethod, hseg, atoiPair, hatoi, hn2, Select, hselect, st1, found]
  have h := respondWithJSON_unwritten st1 200
    (.conversation { ID := n, Messages := some found }) hwh
  refine ⟨_, hrun, h.1, ?_, rfl, rfl⟩
  rw [h.2.2.1]
  have hmap : found.map marshalMessage = renderedRows st.rows n := by
    simp [found, renderedRows, List.map_map, Function.comp_def, marshalMessage_scan]
  simp [st1, hwb, Marshal, marshalConversation, conversationJSON, hmap]

/-- C3 (amended): a GET in which the text between the second and the third
slash of the raw request target `r.RequestURI` parses to `n ≥ 1`, and whose
select succeeds, is answered 200 with the document `{"id": n, "messages":
[...]}` whose messages are exactly the stored rows of conversation `n`, each
written with sender, message and created and without a `conversation_id`
field; the table is left unchanged; when no row matches, `messages` is the
empty array (not `null`). -/
theorem conversationsHandler_returns_conversation (env : Env) (st : State) (r : Request)
    (segment : String) (n : Int) (hmethod : r.Method = "GET")
    (hseg : (strings.Split r.RequestURI '/')[2]? = some segment)
    (hatoi : strconv.Atoi segment = .ok n) (hn : 1 ≤ n) (hselect : env.selectErr = none)
    (hw : Unwritten st.w) :
    ∃ st', conversationsHandler env st r = .returned st' ∧
      st'.w.status = 200 ∧
      st'.w.body = [JSON.obj [("id", JSON.num n), ("messages", JSON.arr
        ((st.rows.filter (fun row => row.conversation_id = n)).map
          (fun row => renderedMessage row.sender row.message row.created.text)))]] ∧
      st'.rows = st.rows ∧
      ((∀ row ∈ st.rows, row.conversation_id ≠ n) →
        st'.w.body = [JSON.obj [("id", JSON.num n), ("messages", JSON.arr [])]]) := by
  obtain ⟨st', hrun, hstatus, hbody, hrows, _⟩ :=
    conversationsHandler_found env st r segment n hmethod hseg hatoi hn hselect hw
  refine ⟨st', hrun, hstatus, hbody, hrows, ?_⟩
  intro hnone
  have hfilter : st.rows.filter (fun row => row.conversation_id = n) = [] := by
    simpa [List.filter_eq_nil_iff] using hnone
  rw [hbody]
  simp [conversationJSON, renderedRows, hfilter]

/-- C3 (amended) at the request of `TestGetConversations` (two of the three
rows belong to conversation 1234), at a conversation without rows, and at an
identifier written with a sign. -/
theorem conversationsHandler_returns_conversation_witness :
    (∃ st', conversationsHandler (sampleEnv teapot) sampleState
        (sampleRequest "GET" "/conversations/1234") = .returned st' ∧
      st'.w.status = 200 ∧
      st'.w.body = [JSON.obj [("id", JSON.num 1234), ("messages", JSON.arr
        [renderedMessage "anson" "I'm a teapot" "2019-05-01T10:00:00Z",
         renderedMessage "david" "Short and stout" "2019-05-01T10:00:00Z"])]] ∧
      st'.rows = sampleState.rows) ∧
    (∃ st', conversationsHandler (sampleEnv teapot) sampleState
        (sampleRequest "GET" "/conversations/7") = .returned st' ∧
      st'.w.status = 200 ∧
      st'.w.body = [JSON.obj [("id", JSON.num 7), ("messages", JSON.arr [])]] ∧
      st'.rows = sampleState.rows) ∧
    (∃ st', conversationsHandler (sampleEnv teapot) sampleState
        (sampleRequest "GET" "/conversations/+4321/x") = .returned st' ∧
      st'.w.status = 200 ∧
      st'.w.body = [JSON.obj [("id", JSON.num 4321), ("messages", JSON.arr
        [renderedMessage "mrs.potts" "Now, Chip, I won't have you making up such wild stories."
          "2019-05-01T10:00:00Z"])]] ∧
      st'.rows = sampleState.rows) :=
  ⟨match conversationsHandler_returns_conversation (sampleEnv teapot) sampleState
      (sampleRequest "GET" "/conversations/1234") "1234" 1234 rfl (by decide) (by decide)
      (by decide) rfl ⟨rfl, rfl⟩ with
    | ⟨st', hrun, hstatus, hbody, hrows, _⟩ => ⟨st', hrun, hstatus, hbody, hrows⟩,
   match conversationsHandler_returns_conversation (sampleEnv teapot) sampleState
      (sampleRequest "GET" "/conversations/7") "7" 7 rfl (by decide) (by decide)
      (by decide) rfl ⟨rfl, rfl⟩ with
    | ⟨st', hrun, hstatus, _, hrows, hempty⟩ => ⟨st', hrun, hstatus, hempty (by decide), hrows⟩,
   match conversationsHandler_returns_conversation (sampleEnv teapot) sampleState
      (sampleRequest "GET" "/conversations/+4321/x") "+4321" 4321 rfl (by decide) (by decide)
      (by decide) rfl ⟨rfl, rfl⟩ with
    | ⟨st', hrun, hstatus, hbody, hrows, _⟩ => ⟨st', hrun, hstatus, hbody, hrows⟩⟩

/-- C3 as stated fails.  The request `GET http://1234/conversations/7` has the
URL path `/conversations/7`, which the mux matches to `/conversations/`, and
the valid identifier 7; its select succeeds, yet the handler selects and
answers for conversation 1234, the host name being the text between the second
and the third slash of the request target.  The request
`GET http://example.com/conversations/1234` has the valid identifier 1234 and
is answered 404 without a select. -/
theorem conversationsHandler_returns_conversation_counterexample :
    (NewRequest "GET" "http://1234/conversations/7" "").map
        (fun r => (r.URL.Path, muxMatch r.URL.Path, identifierSegment r.URL.Path,
          (conversationsHandler (sampleEnv teapot) sampleState r).state.w.status,
          (conversationsHandler (sampleEnv teapot) sampleState r).state.stmts))
      = some ("/conversations/7", some Route.conversations, some "7", 200, [Stmt.select 1234]) ∧
    (NewRequest "GET" "http://1234/conversations/7" "").map
        (fun r => (conversationsHandler (sampleEnv teapot) sampleState r).state.w.body)
      = some [conversationJSON 1234
          [renderedMessage "anson" "I'm a teapot" "2019-05-01T10:00:00Z",
           renderedMessage "david" "Short and stout" "2019-05-01T10:00:00Z"]] ∧
    strconv.Atoi "7" = .ok 7 ∧
    (NewRequest "GET" "http://example.com/conversations/1234" "").map
        (fun r => (r.URL.Path, muxMatch r.URL.Path, identifierSegment r.URL.Path,
          (conversationsHandler (sampleEnv teapot) sampleState r).state.w.status,
          (conversationsHandler (sampleEnv teapot) sampleState r).state.stmts))
      = some ("/conversations/1234", some Route.conversations, some "1234", 404, []) ∧
    strconv.Atoi "1234" = .ok 1234 := by
  refine ⟨by decide, rfl, by decide, by decide, by decide⟩

/-- What the column stores of a sender that fits is the sender itself. -/
theorem storedSender_of_short (s : String) (h : s.length ≤ 32) : storedSender s = s := by
  obtain ⟨l⟩ := s
  simp only [String.length] at h
  simp [storedSender, List.take_of_length_le h]

/-- A successful assignment to the column yields the stored sender. -/
theorem varchar32_ok (s t : String) (h : varchar32 s = .ok t) : t = storedSender s := by
  unfold varchar32 at h
  split at h
  · rename_i hlen
    cases h
    exact (storedSender_of_short _ hlen).symm
  · split at h
    · cases h
      rfl
    · cases h

/-- A successful insert: the environment reports no error and the row holds
the stored sender. -/
theorem NamedExec_ok (env : Env) (st : State) (msg : Message)
    (h : (NamedExec env st msg).2 = none) :
    NamedExec env st msg =
      ({ st with stmts := st.stmts ++ [Stmt.insert msg.Sender msg.ConversationID msg.Message],
                 rows := st.rows ++ [{ sender := storedSender msg.Sender,
                                       conversation_id := msg.ConversationID,
                                       message := msg.Message, created := env.now }] }, none) := by
  unfold NamedExec at h ⊢
  cases he : env.execErr with
  | some err => simp [he] at h
  | none =>
    cases hv : varchar32 msg.Sender with
    | error err => simp [he, hv] at h
    | ok sender =>
      have := varchar32_ok _ _ hv
      subst this
      simp

/-- C2 (amended): a POST whose body decodes into a Message with
`conversation_id = c ≥ 1` and whose insert succeeds is answered 200 with
`{"message":"Message posted"}` and appends exactly one row `(s', c, m)`, where
`s'` is the sender as the column `VARCHAR(32)` stores it (`s` itself when `s`
has at most 32 characters); a following GET of `/conversations/c` whose select
succeeds is answered 200 with a messages list that contains an entry with
sender `s'` and message `m`. -/
theorem post_then_get_round_trip (env envGet : Env) (st : State) (r rGet : Request)
    (msg : Message) (wGet : ResponseWriter)
    (hmethod : r.Method = "POST") (hdecode : env.decode r.Body = .ok msg)
    (hid : 1 ≤ msg.ConversationID) (hint : msg.ConversationID ≤ strconv.maxInt)
    (hinsert : (NamedExec env st msg).2 = none) (hw : Unwritten st.w)
    (hget : rGet.Method = "GET")
    (huri : rGet.RequestURI = "/conversations/" ++ strconv.Itoa msg.ConversationID.toNat)
    (hselect : envGet.selectErr = none) (hwGet : Unwritten wGet) :
    ∃ st1, messagesHandler env st r = .returned st1 ∧
      st1.w.status = 200 ∧
      st1.w.body = [JSON.obj [("message", JSON.str "Message posted")]] ∧
      st1.rows = st.rows ++ [{ sender := storedSender msg.Sender,
                               conversation_id := msg.ConversationID,
                               message := msg.Message, created := env.now }] ∧
      (msg.Sender.length ≤ 32 → storedSender msg.Sender = msg.Sender) ∧
      st1.stmts = st.stmts ++ [Stmt.insert msg.Sender msg.ConversationID msg.Message] ∧
      ∃ st2 messages, conversationsHandler envGet { st1 with w := wGet } rGet = .returned st2 ∧
        st2.w.status = 200 ∧
        st2.w.body = [JSON.obj [("id", JSON.num msg.ConversationID),
                                ("messages", JSON.arr messages)]] ∧
        renderedMessage (storedSender msg.Sender) msg.Message env.now.text ∈ messages := by
  obtain ⟨hwh, hwb⟩ := hw
  have hid2 : ¬ msg.ConversationID < 1 := by omega
  let row : Row := { sender := storedSender msg.Sender, conversation_id := msg.ConversationID,
                     message := msg.Message, created := env.now }
  let stIns : State :=
    { st with stmts := st.stmts ++ [Stmt.insert msg.Sender msg.ConversationID msg.Message],
              rows := st.rows ++ [row] }
  have hrun : messagesHandler env st r
      = .returned (respondWithJSON stIns 200 (.stringMap [("message", "Message posted")])) := by
    simp [messagesHandler, hmethod, hdecode, hid2, NamedExec_ok env st msg hinsert, stIns, row]
  have h := respondWithJSON_unwritten stIns 200 (.stringMap [("message", "Message posted")]) hwh
  refine ⟨_, hrun, h.1, ?_, rfl, storedSender_of_short _, rfl, ?_⟩
  · rw [h.2.2.1]
    simp [stIns, hwb, Marshal]
  · have hcast : ((msg.ConversationID.toNat : Nat) : Int) = msg.ConversationID :=
      Int.toNat_of_nonneg (by omega)
    have hatoi : strconv.Atoi (strconv.Itoa msg.ConversationID.toNat) = .ok msg.ConversationID := by
      have := strconv.Atoi_Itoa msg.ConversationID.toNat (by rw [hcast]; exact hint)
      rwa [hcast] at this
    have hseg : (strings.Split rGet.RequestURI '/')[2]?
        = some (strconv.Itoa msg.ConversationID.toNat) := by
      rw [huri]
      have := strings.Split_conversations (strconv.Itoa msg.ConversationID.toNat) ""
        (strconv.Itoa_not_mem _ '/' (by decide)) (Or.inl rfl)
      simpa using this
    obtain ⟨st2, hrun2, hstatus2, hbody2, _, _⟩ :=
      conversationsHandler_found envGet
        { respondWithJSON stIns 200 (.stringMap [("message", "Message posted")]) with w := wGet }
        rGet _ msg.ConversationID hget hseg hatoi hid hselect hwGet
    refine ⟨st2, _, hrun2, hstatus2, hbody2, ?_⟩
    simp only [renderedRows, List.mem_map, List.mem_filter]
    refine ⟨row, ⟨?_, ?_⟩, rfl⟩
    · show row ∈ (respondWithJSON stIns 200 _).rows
      simp [(respondWithJSON_store stIns 200 _).1, stIns]
    · simp [row]

/-- C2 (amended) at the request of `TestPostMessages`, followed by a GET of
`/conversations/1234` on a new recorder. -/
theorem post_then_get_round_trip_witness :
    ∃ st1, messagesHandler (sampleEnv teapot) emptyState (sampleRequest "POST" "/messages/")
        = .returned st1 ∧
      st1.w.status = 200 ∧
      st1.w.body = [JSON.obj [("message", JSON.str "Message posted")]] ∧
      st1.rows = [{ sender := "anson", conversation_id := 1234,
                    message := "I'm a teapot", created := sampleTime }] ∧
      st1.stmts = [Stmt.insert "anson" 1234 "I'm a teapot"] ∧
      ∃ st2 messages, conversationsHandler (sampleEnv teapot) { st1 with w := NewRecorder }
          (sampleRequest "GET" "/conversations/1234") = .returned st2 ∧
        st2.w.status = 200 ∧
        st2.w.body = [JSON.obj [("id", JSON.num 1234), ("messages", JSON.arr messages)]] ∧
        renderedMessage "anson" "I'm a teapot" "2019-05-01T10:00:00Z" ∈ messages :=
  match post_then_get_round_trip (sampleEnv teapot) (sampleEnv teapot) emptyState
    (sampleRequest "POST" "/messages/") (sampleRequest "GET" "/conversations/1234") teapot
    NewRecorder rfl rfl (by decide) (by decide) rfl ⟨rfl, rfl⟩ rfl (by decide) rfl
    ⟨rfl, rfl⟩ with
  | ⟨st1, hrun, hstatus, hbody, hrows, _, hstmts, hget⟩ =>
    ⟨st1, hrun, hstatus, hbody, hrows, hstmts, hget⟩

/-- C2 as stated fails.  First: the POST of `TestPostMessages` is answered 200
after a successful insert, and the following GET of `/conversations/1234` is
answered 500 when its select fails.  Second: a sender of 35 characters whose
last three are spaces is inserted successfully, but the row holds its first 32
characters, and the following GET shows that sender, not the posted one. -/
theorem post_then_get_counterexample :
    ((NamedExec (selectFailingEnv teapot) emptyState teapot).2 = none ∧
      (messagesHandler (selectFailingEnv teapot) emptyState
        (sampleRequest "POST" "/messages/")).state.w.status = 200 ∧
      (conversationsHandler (selectFailingEnv teapot)
        { (messagesHandler (selectFailingEnv teapot) emptyState
            (sampleRequest "POST" "/messages/")).state with w := NewRecorder }
        (sampleRequest "GET" "/conversations/1234")).state.w.status = 500) ∧
    ((NamedExec (sampleEnv paddedTeapot) emptyState paddedTeapot).2 = none ∧
      (messagesHandler (sampleEnv paddedTeapot) emptyState
        (sampleRequest "POST" "/messages/")).state.w.status = 200 ∧
      (messagesHandler (sampleEnv paddedTeapot) emptyState
        (sampleRequest "POST" "/messages/")).state.rows
        = [{ sender := "anson" ++ String.mk (List.replicate 27 ' '), conversation_id := 1234,
             message := "I'm a teapot", created := sampleTime }] ∧
      paddedTeapot.Sender ≠ "anson" ++ String.mk (List.replicate 27 ' ') ∧
      (conversationsHandler (sampleEnv paddedTeapot)
        { (messagesHandler (sampleEnv paddedTeapot) emptyState
            (sampleRequest "POST" "/messages/")).state with w := NewRecorder }
        (sampleRequest "GET" "/conversations/1234")).state.w.body
        = [conversationJSON 1234 [renderedMessage
            ("anson" ++ String.mk (List.replicate 27 ' ')) "I'm a teapot"
            "2019-05-01T10:00:00Z"]]) := by
  refine ⟨⟨by decide, by decide, by decide⟩, ⟨by decide, by decide, by decide, by decide, rfl⟩⟩

/-- The identifier check of `conversationsHandler` on a request target
`/conversations/<segment><rest>`: 404 exactly when the segment is rejected. -/
theorem conversationsHandler_segment_check (env : Env) (st : State) (r : Request)
    (segment rest : String) (hmethod : r.Method = "GET")
    (huri : r.RequestURI = "/conversations/" ++ segment ++ rest)
    (hslash : '/' ∉ segment.data) (hrest : rest = "" ∨ rest.data.head? = some '/')
    (hw : Unwritten st.w) :
    ∃ st', conversationsHandler env st r = .returned st' ∧
      (InvalidIdentifier segment →
        st'.w.status = 404 ∧ st'.w.body = [errorJSON "Invalid conversation ID"] ∧
        st'.rows = st.rows ∧ st'.stmts = st.stmts) ∧
      (st'.w.status = 404 → InvalidIdentifier segment) := by
  obtain ⟨hwh, hwb⟩ := hw
  have hseg : (strings.Split r.RequestURI '/')[2]? = some segment := by
    rw [huri]
    exact strings.Split_conversations segment rest hslash hrest
  have hempty : strconv.Atoi "" = .error ⟨"Atoi", "", .invalid⟩ := by decide
  cases hatoi : strconv.Atoi segment with
  | error e =>
    have h := respondWithError_unwritten st 404 "Invalid conversation ID" (some (.num e)) hwh
    refine ⟨respondWithError st 404 "Invalid conversation ID" (some (.num e)), ?_, ?_, ?_⟩
    · simp [conversationsHandler, hmethod, hseg, atoiPair, hatoi]
    · intro _
      refine ⟨h.1, ?_, rfl, rfl⟩
      simpa [hwb] using h.2.2.1
    · intro _
      exact Or.inr (Or.inl ⟨e, hatoi⟩)
  | ok n =>
    by_cases hn : n < 1
    · have h := respondWithError_unwritten st 404 "Invalid conversation ID" none hwh
      refine ⟨respondWithError st 404 "Invalid conversation ID" none, ?_, ?_, ?_⟩
      · simp [conversationsHandler, hmethod, hseg, atoiPair, hatoi, hn]
      · intro _
        refine ⟨h.1, ?_, rfl, rfl⟩
        simpa [hwb] using h.2.2.1
      · intro _
        exact Or.inr (Or.inr ⟨n, hatoi, hn⟩)
    · have hvalid : ¬ InvalidIdentifier segment := by
        rintro (h | ⟨e, h⟩ | ⟨m, h, hm⟩)
        · rw [h, hempty] at hatoi
          cases hatoi
        · rw [hatoi] at h
          cases h
        · rw [hatoi] at h
          cases h
          exact hn hm
      cases hsel : env.selectErr with
      | some err =>
        let st1 : State := { st with stmts := st.stmts ++ [Stmt.select n] }
        have h := respondWithError_unwritten st1 500 "Failed to retrieve conversation"
          (some err) hwh
        refine ⟨respondWithError st1 500 "Failed to retrieve conversation" (some err),
          ?_, fun hi => absurd hi hvalid, ?_⟩
        · simp [conversationsHandler, hmethod, hseg, atoiPair, hatoi, hn, Select, hsel, st1]
        · intro h404
          rw [h.1] at h404
          cases h404
      | none =>
        obtain ⟨st', hrun, hstatus, _⟩ :=
          conversationsHandler_found env st r segment n hmethod hseg hatoi (by omega) hsel
            ⟨hwh, hwb⟩
        refine ⟨st', hrun, fun hi => absurd hi hvalid, ?_⟩
        intro h404
        rw [hstatus] at h404
        cases h404

/-- C4 (amended): for a GET whose raw request target `r.RequestURI` begins
with `/conversations/`, the identifier segment being the text of the target
after that prefix up to the next slash, the response is 404 with the body
`{"error":"Invalid conversation ID"}` and no statement is sent when the
segment is empty, does not parse as an integer or parses below 1; and such a
request is answered 404 only in these cases.  In particular a segment with a
character that is neither a decimal digit nor a sign is answered 404, and the
decimal text of an `n` with `1 ≤ n ≤ maxInt` is not. -/
theorem conversationsHandler_not_found (env : Env) (st : State) (r : Request)
    (segment rest : String) (hmethod : r.Method = "GET")
    (huri : r.RequestURI = "/conversations/" ++ segment ++ rest)
    (hslash : '/' ∉ segment.data) (hrest : rest = "" ∨ rest.data.head? = some '/')
    (hw : Unwritten st.w) :
    ∃ st', conversationsHandler env st r = .returned st' ∧
      (InvalidIdentifier segment →
        st'.w.status = 404 ∧ st'.w.body = [errorJSON "Invalid conversation ID"] ∧
        st'.rows = st.rows ∧ st'.stmts = st.stmts) ∧
      (st'.w.status = 404 → InvalidIdentifier segment) ∧
      ((∃ c ∈ segment.data, strconv.digitVal c = none ∧ c ≠ '+' ∧ c ≠ '-') →
        st'.w.status = 404) ∧
      (∀ n : Nat, 1 ≤ n → (n : Int) ≤ strconv.maxInt → segment = strconv.Itoa n →
        st'.w.status ≠ 404) := by
  obtain ⟨st', hrun, hinvalid, honly⟩ :=
    conversationsHandler_segment_check env st r segment rest hmethod huri hslash hrest hw
  refine ⟨st', hrun, hinvalid, honly, ?_, ?_⟩
  · rintro ⟨c, hc, hdigit, hplus, hminus⟩
    refine (hinvalid ?_).1
    cases hatoi : strconv.Atoi segment with
    | error e => exact Or.inr (Or.inl ⟨e, hatoi⟩)
    | ok n =>
      rcases strconv.Atoi_ok_chars segment n hatoi c hc with h | h | h
      · exact absurd hdigit h
      · exact absurd h hplus
      · exact absurd h hminus
  · intro n hn hint hsegment h404
    have hatoi := strconv.Atoi_Itoa n hint
    rw [← hsegment] at hatoi
    rcases honly h404 with h | ⟨e, h⟩ | ⟨m, h, hm⟩
    · rw [h] at hatoi
      have hempty : strconv.Atoi "" = .error ⟨"Atoi", "", .invalid⟩ := by decide
      rw [hempty] at hatoi
      cases hatoi
    · rw [hatoi] at h
      cases h
    · rw [hatoi] at h
      cases h
      omega

/-- C4 (amended) at the request of `TestGetConversationsWithoutID` (the empty
segment), at a segment of letters, at the segments `0` and `-3`, and at the
valid segments `1234` and `+5`, which are not answered 404. -/
theorem conversationsHandler_not_found_witness :
    (∃ st', conversationsHandler (sampleEnv teapot) sampleState
        (sampleRequest "GET" "/conversations/") = .returned st' ∧
      st'.w.status = 404 ∧ st'.w.body = [errorJSON "Invalid conversation ID"] ∧
      st'.rows = sampleState.rows ∧ st'.stmts = sampleState.stmts) ∧
    (∃ st', conversationsHandler (sampleEnv teapot) sampleState
        (sampleRequest "GET" "/conversations/abc/1234") = .returned st' ∧
      st'.w.status = 404 ∧ st'.w.body = [errorJSON "Invalid conversation ID"] ∧
      st'.rows = sampleState.rows ∧ st'.stmts = sampleState.stmts) ∧
    (∃ st', conversationsHandler (sampleEnv teapot) sampleState
        (sampleRequest "GET" "/conversations/0") = .returned st' ∧
      st'.w.status = 404 ∧ st'.w.body = [errorJSON "Invalid conversation ID"] ∧
      st'.rows = sampleState.rows ∧ st'.stmts = sampleState.stmts) ∧
    (∃ st', conversationsHandler (sampleEnv teapot) sampleState
        (sampleRequest "GET" "/conversations/-3") = .returned st' ∧
      st'.w.status = 404 ∧ st'.w.body = [errorJSON "Invalid conversation ID"] ∧
      st'.rows = sampleState.rows ∧ st'.stmts = sampleState.stmts) ∧
    (∃ st', conversationsHandler (sampleEnv teapot) sampleState
        (sampleRequest "GET" "/conversations/1234/x") = .returned st' ∧
      (st'.w.status = 404 → InvalidIdentifier "1234")) ∧
    (conversationsHandler (sampleEnv teapot) sampleState
        (sampleRequest "GET" "/conversations/1234/x")).state.w.status = 200 ∧
    (conversationsHandler (sampleEnv teapot) sampleState
        (sampleRequest "GET" "/conversations/+5")).state.w.status = 200 :=
  ⟨match conversationsHandler_not_found (sampleEnv teapot) sampleState
      (sampleRequest "GET" "/conversations/") "" "" rfl (by decide) (by decide) (Or.inl rfl)
      ⟨rfl, rfl⟩ with
    | ⟨st', hrun, hinvalid, _⟩ => ⟨st', hrun, hinvalid (Or.inl rfl)⟩,
   match conversationsHandler_not_found (sampleEnv teapot) sampleState
      (sampleRequest "GET" "/conversations/abc/1234") "abc" "/1234" rfl (by decide) (by decide)
      (Or.inr (by decide)) ⟨rfl, rfl⟩ with
    | ⟨st', hrun, hinvalid, _⟩ =>
      ⟨st', hrun, hinvalid (Or.inr (Or.inl ⟨⟨"Atoi", "abc", .invalid⟩, by decide⟩))⟩,
   match conversationsHandler_not_found (sampleEnv teapot) sampleState
      (sampleRequest "GET" "/conversations/0") "0" "" rfl (by decide) (by decide)
      (Or.inl rfl) ⟨rfl, rfl⟩ with
    | ⟨st', hrun, hinvalid, _⟩ =>
      ⟨st', hrun, hinvalid (Or.inr (Or.inr ⟨0, by decide, by decide⟩))⟩,
   match conversationsHandler_not_found (sampleEnv teapot) sampleState
      (sampleRequest "GET" "/conversations/-3") "-3" "" rfl (by decide) (by decide)
      (Or.inl rfl) ⟨rfl, rfl⟩ with
    | ⟨st', hrun, hinvalid, _⟩ =>
      ⟨st', hrun, hinvalid (Or.inr (Or.inr ⟨-3, by decide, by decide⟩))⟩,
   match conversationsHandler_not_found (sampleEnv teapot) sampleState
      (sampleRequest "GET" "/conversations/1234/x") "1234" "/x" rfl (by decide) (by decide)
      (Or.inr (by decide)) ⟨rfl, rfl⟩ with
    | ⟨st', hrun, _, honly, _⟩ => ⟨st', hrun, honly⟩,
   by decide, by decide⟩

/-- C4 as stated fails.  The request `GET http://h/conversations/1234` has the
URL path `/conversations/1234`, which the mux matches to `/conversations/`, and
the valid identifier segment `1234`, yet it is answered 404 (the handler reads
`h`, the text between the second and the third slash of the request target).
The request `GET http://5/conversations/abc` has the identifier segment `abc`,
which does not parse, yet it is answered 200 after the select for 5. -/
theorem conversationsHandler_not_found_counterexample :
    (NewRequest "GET" "http://h/conversations/1234" "").map
        (fun r => (r.URL.Path, muxMatch r.URL.Path, identifierSegment r.URL.Path,
          (conversationsHandler (sampleEnv teapot) sampleState r).state.w.status,
          (conversationsHandler (sampleEnv teapot) sampleState r).state.stmts))
      = some ("/conversations/1234", some Route.conversations, some "1234", 404, []) ∧
    strconv.Atoi "1234" = .ok 1234 ∧
    (NewRequest "GET" "http://5/conversations/abc" "").map
        (fun r => (r.URL.Path, muxMatch r.URL.Path, identifierSegment r.URL.Path,
          (conversationsHandler (sampleEnv teapot) sampleState r).state.w.status,
          (conversationsHandler (sampleEnv teapot) sampleState r).state.stmts))
      = some ("/conversations/abc", some Route.conversations, some "abc", 200,
          [Stmt.select 5]) ∧
    strconv.Atoi "abc" = .error ⟨"Atoi", "abc", .invalid⟩ := by
  refine ⟨by decide, by decide, by decide, by decide⟩

/-! ## Errors stay on the server -/

/-- C8: what `respondWithError` writes to the client does not depend on the
underlying error: for every status, message and two errors (nil included) the
response writer ends in the same state, with the body `{"error": message}`
(and the given status, a three-digit code, when nothing was written before);
so a storage failure in `messagesHandler` / `conversationsHandler` is answered
500 with the fixed body "Failed to post message" / "Failed to retrieve
conversation", whatever the database error is; the error reaches the log only. -/
theorem respondWithError_hides_error (env : Env) (st : State) (r : Request) (status : Nat)
    (message : String) (e1 e2 : Option GoError) (hw : Unwritten st.w) :
    (∀ st0 : State,
      (respondWithError st0 status message e1).w = (respondWithError st0 status message e2).w) ∧
    (100 ≤ status → status ≤ 999 →
      (respondWithError st status message e1).w.status = status ∧
      (respondWithError st status message e1).w.body = [errorJSON message]) ∧
    (∀ msg err, r.Method = "POST" → env.decode r.Body = .ok msg → 1 ≤ msg.ConversationID →
      env.execErr = some err →
      ∃ st', messagesHandler env st r = .returned st' ∧
        st'.w.status = 500 ∧ st'.w.body = [errorJSON "Failed to post message"]) ∧
    (∀ segment n err, r.Method = "GET" →
      (strings.Split r.RequestURI '/')[2]? = some segment → strconv.Atoi segment = .ok n →
      1 ≤ n → env.selectErr = some err →
      ∃ st', conversationsHandler env st r = .returned st' ∧
        st'.w.status = 500 ∧ st'.w.body = [errorJSON "Failed to retrieve conversation"]) ∧
    (respondWithError st status message e1).log = st.log ++ [LogLine.printf message e1] := by
  obtain ⟨hwh, hwb⟩ := hw
  refine ⟨fun st0 => rfl, ?_, ?_, ?_, rfl⟩
  · intro _ _
    have h := respondWithError_unwritten st status message e1 hwh
    exact ⟨h.1, by simpa [hwb] using h.2.2.1⟩
  · intro msg err hmethod hdecode hid hexec
    have hid2 : ¬ msg.ConversationID < 1 := by omega
    let st1 : State :=
      { st with stmts := st.stmts ++ [Stmt.insert msg.Sender msg.ConversationID msg.Message] }
    have h := respondWithError_unwritten st1 500 "Failed to post message" (some err) hwh
    refine ⟨respondWithError st1 500 "Failed to post message" (some err), ?_, h.1, ?_⟩
    · simp [messagesHandler, hmethod, hdecode, hid2, NamedExec, hexec, st1]
    · simpa [st1, hwb] using h.2.2.1
  · intro segment n err hmethod hseg hatoi hn hsel
    have hn2 : ¬ n < 1 := by omega
    let st1 : State := { st with stmts := st.stmts ++ [Stmt.select n] }
    have h := respondWithError_unwritten st1 500 "Failed to retrieve conversation" (some err) hwh
    refine ⟨respondWithError st1 500 "Failed to retrieve conversation" (some err), ?_, h.1, ?_⟩
    · simp [conversationsHandler, hmethod, hseg, atoiPair, hatoi, hn2, Select, hsel, st1]
    · simpa [st1, hwb] using h.2.2.1

/-- C8 at a database that refuses the connection: both endpoints answer 500
with their fixed body. -/
theorem respondWithError_hides_error_witness :
    (∃ st', messagesHandler (failingEnv teapot) sampleState (sampleRequest "POST" "/messages/")
        = .returned st' ∧
      st'.w.status = 500 ∧ st'.w.body = [errorJSON "Failed to post message"]) ∧
    (∃ st', conversationsHandler (failingEnv teapot) sampleState
        (sampleRequest "GET" "/conversations/1234") = .returned st' ∧
      st'.w.status = 500 ∧ st'.w.body = [errorJSON "Failed to retrieve conversation"]) ∧
    (respondWithError sampleState 500 "Failed to post message" none).w
      = (respondWithError sampleState 500 "Failed to post message"
          (some (.other "pq: connection refused"))).w :=
  ⟨(respondWithError_hides_error (failingEnv teapot) sampleState
      (sampleRequest "POST" "/messages/") 500 "Failed to post message" none
      (some (.other "pq: connection refused")) ⟨rfl, rfl⟩).2.2.1
      teapot (.other "pq: connection refused") rfl rfl (by decide) rfl,
   (respondWithError_hides_error (failingEnv teapot) sampleState
      (sampleRequest "GET" "/conversations/1234") 500 "Failed to post message" none
      (some (.other "pq: connection refused")) ⟨rfl, rfl⟩).2.2.2.1
      "1234" 1234 (.other "pq: connection refused") rfl (by decide) (by decide) (by decide) rfl,
   (respondWithError_hides_error (failingEnv teapot) sampleState
      (sampleRequest "POST" "/messages/") 500 "Failed to post message" none
      (some (.other "pq: connection refused")) ⟨rfl, rfl⟩).1 sampleState⟩

/-! ## How each handler ends -/

theorem Responded.of_error (st st1 : State) (status : Nat) (message : String)
    (err : Option GoError) (h : st1.w = st.w) :
    Responded st (respondWithError st1 status message err) :=
  ⟨{ st1 with log := st1.log ++ [LogLine.printf message err] }, status,
    .stringMap [("error", message)], h, rfl⟩

theorem Responded.of_json (st st1 : State) (status : Nat) (payload : Payload)
    (h : st1.w = st.w) : Responded st (respondWithJSON st1 status payload) :=
  ⟨st1, status, payload, h, rfl⟩

/-- Function `messagesHandler` always returns, after one `respondWithJSON`. -/
theorem messagesHandler_responded (env : Env) (st : State) (r : Request) :
    ∃ st', messagesHandler env st r = .returned st' ∧ Responded st st' := by
  unfold messagesHandler
  by_cases hm : r.Method = "POST"
  · cases hd : env.decode r.Body with
    | error err =>
      simp only [hm, ne_eq, not_true_eq_false, if_false]
      exact ⟨_, rfl, Responded.of_error st st 400 _ _ rfl⟩
    | ok msg =>
      by_cases hid : msg.ConversationID < 1
      · simp only [hm, ne_eq, not_true_eq_false, if_false, hid, if_true]
        exact ⟨_, rfl, Responded.of_error st st 400 _ _ rfl⟩
      · cases he : env.execErr with
        | some err =>
          simp only [hm, ne_eq, not_true_eq_false, if_false, hid, NamedExec, he]
          exact ⟨_, rfl, Responded.of_error st _ 500 _ _ rfl⟩
        | none =>
          cases hv : varchar32 msg.Sender with
          | error err =>
            simp only [hm, ne_eq, not_true_eq_false, if_false, hid, NamedExec, he, hv]
            exact ⟨_, rfl, Responded.of_error st _ 500 _ _ rfl⟩
          | ok sender =>
            simp only [hm, ne_eq, not_true_eq_false, if_false, hid, NamedExec, he, hv]
            exact ⟨_, rfl, Responded.of_json st _ 200 _ rfl⟩
  · simp only [ne_eq, hm, not_false_eq_true, if_true]
    exact ⟨_, rfl, Responded.of_error st st 405 _ _ rfl⟩

/-- Function `conversationsHandler` panics exactly on a GET whose request URI
splits into fewer than three pieces; otherwise it returns after one
`respondWithJSON`. -/
theorem conversationsHandler_outcome (env : Env) (st : State) (r : Request) :
    (r.Method = "GET" ∧ (strings.Split r.RequestURI '/').length ≤ 2 ∧
      conversationsHandler env st r = .panicked st) ∨
    ((r.Method = "GET" → 2 < (strings.Split r.RequestURI '/').length) ∧
      ∃ st', conversationsHandler env st r = .returned st' ∧ Responded st st') := by
  unfold conversationsHandler
  by_cases hm : r.Method = "GET"
  · cases hs : (strings.Split r.RequestURI '/')[2]? with
    | none =>
      left
      exact ⟨hm, List.getElem?_eq_none_iff.mp hs, by simp [hm]⟩
    | some segment =>
      right
      have hlen : 2 < (strings.Split r.RequestURI '/').length := by
        by_contra hc
        rw [List.getElem?_eq_none (by omega)] at hs
        cases hs
      refine ⟨fun _ => hlen, ?_⟩
      cases ha : strconv.Atoi segment with
      | error e =>
        simp only [hm, ne_eq, not_true_eq_false, if_false, atoiPair, ha]
        exact ⟨_, rfl, Responded.of_error st st 404 _ _ rfl⟩
      | ok n =>
        by_cases hn : n < 1
        · simp only [hm, ne_eq, not_true_eq_false, if_false, atoiPair, ha, hn, or_true, if_true]
          exact ⟨_, rfl, Responded.of_error st st 404 _ _ rfl⟩
        · cases hsel : env.selectErr with
          | some err =>
            simp only [hm, ne_eq, not_true_eq_false, if_false, atoiPair, ha, hn, or_false,
              Select, hsel]
            exact ⟨_, rfl, Responded.of_error st _ 500 _ _ rfl⟩
          | none =>
            simp only [hm, ne_eq, not_true_eq_false, if_false, atoiPair, ha, hn, or_false,
              Select, hsel]
            exact ⟨_, rfl, Responded.of_json st _ 200 _ rfl⟩
  · right
    refine ⟨fun h => absurd h hm, ?_⟩
    simp only [ne_eq, hm, not_false_eq_true, if_true]
    exact ⟨_, rfl, Responded.of_error st st 405 _ _ rfl⟩

/-- After one `respondWithJSON` on a writer without written header, the sent
headers are the headers of before plus the two set by `respondWithJSON`. -/
theorem Responded.sent (st st' : State) (h : Responded st st') (hw : st.w.wroteHeader = false) :
    st'.w.wroteHeader = true ∧
    st'.w.sentHeader = (st.w.header.Set "Content-Type" "application/json; charset=utf-8").Set
        "X-Content-Type-Options" "nosniff" := by
  obtain ⟨st1, status, payload, hw1, rfl⟩ := h
  have h := respondWithJSON_unwritten st1 status payload (by rw [hw1]; exact hw)
  exact ⟨h.2.1, by rw [h.2.2.2, hw1]⟩

/-- The unhealthy branch of `healthzHandler`: the status line goes out with the
headers as they were on entry; the two headers set afterwards by
`respondWithJSON` reach only the header map. -/
theorem healthzHandler_unhealthy (st : State) (r : Request) (hflag : st.healthy ≠ 1)
    (hw : st.w.wroteHeader = false) :
    ∃ st', healthzHandler st r = .returned st' ∧
      st'.w.wroteHeader = true ∧ st'.w.status = 503 ∧ st'.w.sentHeader = st.w.header ∧
      st'.w.body = st.w.body ++ [errorJSON "Unhealthy"] ∧
      st'.w.header = (st.w.header.Set "Content-Type" "application/json; charset=utf-8").Set
        "X-Content-Type-Options" "nosniff" := by
  have hrun : healthzHandler st r = .returned
      (respondWithError { st with w := st.w.WriteHeader 503 } 503 "Unhealthy" none) := by
    simp only [healthzHandler, hflag, if_false]
  refine ⟨_, hrun, ?_⟩
  simp [respondWithError, respondWithJSON, ResponseWriter.Write, ResponseWriter.WriteHeader,
    ResponseWriter.HeaderSet, hw, Marshal, errorJSON]

/-- The healthy branch of `healthzHandler` is one `respondWithJSON`. -/
theorem healthzHandler_healthy (st : State) (r : Request) (hflag : st.healthy = 1) :
    ∃ st', healthzHandler st r = .returned st' ∧ Responded st st' ∧ st'.w.status =
      (respondWithJSON st 200 (.stringMap [("status", "OK")])).w.status :=
  ⟨respondWithJSON st 200 (.stringMap [("status", "OK")]),
    by simp only [healthzHandler, hflag, if_true], Responded.of_json st st 200 _ rfl, rfl⟩

/-- Every registered handler that returns has sent the status line, and every
header other than the two set by `respondWithJSON` is sent as it was on entry. -/
theorem routeHandler_sent (env : Env) (route : Route) (st : State) (r : Request)
    (hw : st.w.wroteHeader = false)
    (hok : route = .conversations → r.Method = "GET" →
      2 < (strings.Split r.RequestURI '/').length) :
    ∃ st', routeHandler env route st r = .returned st' ∧ st'.w.wroteHeader = true ∧
      ∀ key, key ≠ "Content-Type" → key ≠ "X-Content-Type-Options" →
        st'.w.sentHeader.Get key = st.w.header.Get key := by
  have hresp : ∀ st', Responded st st' → st'.w.wroteHeader = true ∧
      ∀ key, key ≠ "Content-Type" → key ≠ "X-Content-Type-Options" →
        st'.w.sentHeader.Get key = st.w.header.Get key := by
    intro st' h
    obtain ⟨h1, h2⟩ := Responded.sent st st' h hw
    refine ⟨h1, fun key hk1 hk2 => ?_⟩
    rw [h2, Header.Get_Set_ne _ _ _ _ hk2, Header.Get_Set_ne _ _ _ _ hk1]
  cases route with
  | messages =>
    obtain ⟨st', hrun, h⟩ := messagesHandler_responded env st r
    exact ⟨st', hrun, hresp st' h⟩
  | conversations =>
    rcases conversationsHandler_outcome env st r with ⟨hm, hlen, _⟩ | ⟨_, st', hrun, h⟩
    · have := hok rfl hm
      omega
    · exact ⟨st', hrun, hresp st' h⟩
  | healthz =>
    by_cases hflag : st.healthy = 1
    · obtain ⟨st', hrun, h, _⟩ := healthzHandler_healthy st r hflag
      exact ⟨st', hrun, hresp st' h⟩
    · obtain ⟨st', hrun, h1, _, h2, _⟩ := healthzHandler_unhealthy st r hflag hw
      exact ⟨st', hrun, h1, fun key _ _ => by rw [h2]⟩

/-- Function `logging` appends its line to the log of the wrapped handler and
changes nothing else. -/
theorem logging_state (next : Handler) (st : State) (r : Request) :
    (logging next st r).state.w = (next st r).state.w ∧
    (logging next st r).state.log = (next st r).state.log ++ [LogLine.println
      [(r.ctx.Value requestIDKey).getD "unknown", r.RemoteAddr, r.Method, r.URL.Path, r.Proto,
        r.UserAgent]] := by
  unfold logging
  cases hnext : next st r <;> cases hctx : r.ctx.Value requestIDKey <;>
    simp [Outcome.state, hctx]

theorem logging_returned (next : Handler) (st : State) (r : Request) (st' : State)
    (h : next st r = .returned st') :
    ∃ st'', logging next st r = .returned st'' ∧ st''.w = st'.w := by
  unfold logging
  rw [h]
  exact ⟨_, rfl, rfl⟩

/-! ## The middleware chain -/

/-- C9: `tracing` settles on the request's `X-Request-Id` header when it is
non-empty and on `nextRequestID()` otherwise; it calls the wrapped handler with
that value in the response header map and in the request context under
`requestIDKey`; the line that `logging` writes starts with the same value; and
the response of every registered handler is sent with `X-Request-Id` equal to
it (a handler that panics, which only `conversationsHandler` does on a request
URI with fewer than two slashes, sends no response). -/
theorem tracing_request_id (env : Env) (route : Route) (st : State) (r : Request)
    (hw : st.w.wroteHeader = false) :
    (r.Header.Get "X-Request-Id" ≠ "" → tracedID env r = r.Header.Get "X-Request-Id") ∧
    (r.Header.Get "X-Request-Id" = "" → tracedID env r = nextRequestID env ()) ∧
    (∀ next : Handler, tracing (nextRequestID env) next st r
      = next { st with w := st.w.HeaderSet "X-Request-Id" (tracedID env r) }
          (r.WithContext (r.ctx.WithValue requestIDKey (tracedID env r)))) ∧
    (r.WithContext (r.ctx.WithValue requestIDKey (tracedID env r))).ctx.Value requestIDKey
      = some (tracedID env r) ∧
    (initHTTPHandler env route st r).state.log.getLast? = some (LogLine.println
      [tracedID env r, r.RemoteAddr, r.Method, r.URL.Path, r.Proto, r.UserAgent]) ∧
    ((route = .conversations → r.Method = "GET" →
        2 < (strings.Split r.RequestURI '/').length) →
      ∃ st', initHTTPHandler env route st r = .returned st' ∧ st'.w.wroteHeader = true ∧
        st'.w.sentHeader.Get "X-Request-Id" = tracedID env r) := by
  have htr : ∀ next : Handler, tracing (nextRequestID env) next st r
      = next { st with w := st.w.HeaderSet "X-Request-Id" (tracedID env r) }
          (r.WithContext (r.ctx.WithValue requestIDKey (tracedID env r))) := by
    intro next
    unfold tracing tracedID
    by_cases h : r.Header.Get "X-Request-Id" = "" <;> simp [h]
  have hctx : (r.WithContext (r.ctx.WithValue requestIDKey (tracedID env r))).ctx.Value
      requestIDKey = some (tracedID env r) := by
    simp [Request.WithContext, Context.WithValue, Context.Value, List.find?]
  refine ⟨fun h => by simp [tracedID, h], fun h => by simp [tracedID, h], htr, hctx, ?_, ?_⟩
  · unfold initHTTPHandler
    rw [htr, (logging_state _ _ _).2, List.getLast?_concat, hctx]
    rfl
  · intro hok
    unfold initHTTPHandler
    rw [htr]
    obtain ⟨st1, hrun, hwrote, hsent⟩ := routeHandler_sent env route
      { st with w := st.w.HeaderSet "X-Request-Id" (tracedID env r) }
      (r.WithContext (r.ctx.WithValue requestIDKey (tracedID env r))) hw hok
    obtain ⟨st2, hrun2, hw2⟩ := logging_returned _ _ _ st1 hrun
    refine ⟨st2, hrun2, by rw [hw2]; exact hwrote, ?_⟩
    rw [hw2, hsent "X-Request-Id" (by decide) (by decide)]
    exact Header.Get_Set_same _ _ _

/-- C9 at a request that carries `X-Request-Id: abc` and at one that carries
none: the response echoes `abc`, respectively the clock reading. -/
theorem tracing_request_id_witness :
    (∃ st', initHTTPHandler (sampleEnv teapot) .messages emptyState tracedRequest
        = .returned st' ∧ st'.w.wroteHeader = true ∧
      st'.w.sentHeader.Get "X-Request-Id" = tracedID (sampleEnv teapot) tracedRequest) ∧
    tracedID (sampleEnv teapot) tracedRequest = "abc" ∧
    tracedID (sampleEnv teapot) (sampleRequest "GET" "/healthz")
      = nextRequestID (sampleEnv teapot) () :=
  ⟨(tracing_request_id (sampleEnv teapot) .messages emptyState tracedRequest rfl).2.2.2.2.2
      (fun h => by cases h),
   (tracing_request_id (sampleEnv teapot) .messages emptyState tracedRequest rfl).1 (by decide),
   (tracing_request_id (sampleEnv teapot) .healthz emptyState (sampleRequest "GET" "/healthz")
      rfl).2.1 rfl⟩

/-! ## Where the code departs from the contract -/

/-- C6 (fails on the unhealthy branch): `healthzHandler` with the flag cleared
calls `WriteHeader(503)` before `respondWithJSON` sets the headers, so the
response is sent with the headers as they were on entry: on a new recorder
without `Content-Type` and without `X-Content-Type-Options`, through the
middleware chain with `X-Request-Id` only.  Every other branch of the three
handlers sends both headers. -/
theorem healthzHandler_unhealthy_omits_headers :
    (∀ (st : State) (r : Request), st.healthy ≠ 1 → st.w.wroteHeader = false →
      ∃ st', healthzHandler st r = .returned st' ∧ st'.w.status = 503 ∧
        st'.w.sentHeader = st.w.header) ∧
    (∃ st', healthzHandler { sampleState with healthy := 0 } (sampleRequest "GET" "/healthz")
        = .returned st' ∧
      st'.w.status = 503 ∧ st'.w.body = [errorJSON "Unhealthy"] ∧
      st'.w.sentHeader.Get "Content-Type" = "" ∧
      st'.w.sentHeader.Get "X-Content-Type-Options" = "") ∧
    (∃ st', initHTTPHandler (sampleEnv teapot) .healthz { sampleState with healthy := 0 }
        (sampleRequest "GET" "/healthz") = .returned st' ∧
      st'.w.status = 503 ∧
      st'.w.sentHeader = [("X-Request-Id", "1556704800000000000")]) ∧
    (∀ (env : Env) (route : Route) (st : State) (r : Request) (st' : State),
      st.w.wroteHeader = false → (route = .healthz → st.healthy = 1) →
      routeHandler env route st r = .returned st' →
      st'.w.sentHeader.Get "Content-Type" = "application/json; charset=utf-8" ∧
      st'.w.sentHeader.Get "X-Content-Type-Options" = "nosniff") := by
  refine ⟨?_, ?_, ?_, ?_⟩
  · intro st r hflag hw
    obtain ⟨st', hrun, _, hstatus, hsent, _⟩ := healthzHandler_unhealthy st r hflag hw
    exact ⟨st', hrun, hstatus, hsent⟩
  · obtain ⟨st', hrun, _, hstatus, hsent, hbody, _⟩ := healthzHandler_unhealthy
      { sampleState with healthy := 0 } (sampleRequest "GET" "/healthz") (by decide) rfl
    refine ⟨st', hrun, hstatus, hbody, ?_, ?_⟩ <;> rw [hsent] <;> rfl
  · exact ⟨_, rfl, rfl, rfl⟩
  · intro env route st r st' hw hhealthy hrun
    have hresp : Responded st st' := by
      cases route with
      | messages =>
        obtain ⟨st'', hrun', h⟩ := messagesHandler_responded env st r
        have heq : Outcome.returned st'' = Outcome.returned st' := hrun'.symm.trans hrun
        cases heq
        exact h
      | conversations =>
        rcases conversationsHandler_outcome env st r with ⟨_, _, hp⟩ | ⟨_, st'', hrun', h⟩
        · have heq : Outcome.panicked st = Outcome.returned st' := hp.symm.trans hrun
          cases heq
        · have heq : Outcome.returned st'' = Outcome.returned st' := hrun'.symm.trans hrun
          cases heq
          exact h
      | healthz =>
        obtain ⟨st'', hrun', h, _⟩ := healthzHandler_healthy st r (hhealthy rfl)
        have heq : Outcome.returned st'' = Outcome.returned st' := hrun'.symm.trans hrun
        cases heq
        exact h
    obtain ⟨_, hsent⟩ := Responded.sent st st' hresp hw
    rw [hsent]
    exact ⟨by rw [Header.Get_Set_ne _ _ _ _ (by decide)]; exact Header.Get_Set_same _ _ _,
      Header.Get_Set_same _ _ _⟩

/-- C7 (fails): `messagesHandler` always returns, but `conversationsHandler`
panics on every GET whose request URI has fewer than two slashes, because it
indexes the split request URI at `[2]`.  Such a request reaches it through the
router: the target `/conversations%2F1` has the decoded path
`/conversations/1`, which the mux matches to `/conversations/`, while its
request URI splits into two pieces only. -/
theorem conversationsHandler_panics_on_short_request_uri :
    (∀ (env : Env) (st : State) (r : Request), ∃ st', messagesHandler env st r = .returned st') ∧
    (∀ (env : Env) (st : State) (r : Request),
      conversationsHandler env st r = .panicked st ↔
        (r.Method = "GET" ∧ (strings.Split r.RequestURI '/').length ≤ 2)) ∧
    (NewRequest "GET" "/conversations%2F1" "").map
        (fun r => (r.URL.Path, muxMatch r.URL.Path, strings.Split r.RequestURI '/'))
      = some ("/conversations/1", some Route.conversations, ["", "conversations%2F1"]) ∧
    (∀ (env : Env) (st : State) (r : Request),
      NewRequest "GET" "/conversations%2F1" "" = some r →
      conversationsHandler env st r = .panicked st) := by
  have hiff : ∀ (env : Env) (st : State) (r : Request),
      conversationsHandler env st r = .panicked st ↔
        (r.Method = "GET" ∧ (strings.Split r.RequestURI '/').length ≤ 2) := by
    intro env st r
    rcases conversationsHandler_outcome env st r with ⟨hm, hlen, hp⟩ | ⟨hlen, st', hrun, _⟩
    · exact ⟨fun _ => ⟨hm, hlen⟩, fun _ => hp⟩
    · constructor
      · intro hp
        have heq : Outcome.returned st' = Outcome.panicked st := hrun.symm.trans hp
        cases heq
      · rintro ⟨hm, hshort⟩
        have := hlen hm
        omega
  refine ⟨?_, hiff, by decide, ?_⟩
  · intro env st r
    obtain ⟨st', hrun, _⟩ := messagesHandler_responded env st r
    exact ⟨st', hrun⟩
  · intro env st r hr
    have hparse : url.ParseRequestURI "/conversations%2F1" = some ⟨"/conversations/1", ""⟩ := by
      decide
    simp only [NewRequest, hparse, Option.map_some', Option.some.injEq] at hr
    subst hr
    exact (hiff env st _).mpr ⟨rfl, by decide⟩

/-- The handler reads the request only through its method and element `[2]`
of the split request URI. -/
theorem conversationsHandler_congr (env : Env) (st : State) (r r2 : Request)
    (hmethod : r2.Method = r.Method)
    (hseg : (strings.Split r2.RequestURI '/')[2]? = (strings.Split r.RequestURI '/')[2]?) :
    conversationsHandler env st r2 = conversationsHandler env st r := by
  unfold conversationsHandler
  rw [hmethod, hseg]

/-- C10 (amended): the identifier is element `[2]` of the split of the raw
request target `r.RequestURI`.  For every `n` with `1 ≤ n ≤ maxInt` and every
GET whose request target is `/conversations/<decimal n>` followed by a slash
and arbitrary further text, the handler sends the select for conversation `n`
and ends exactly as for the plain target `/conversations/<decimal n>`. -/
theorem conversationsHandler_ignores_after_third_slash (env : Env) (st : State) (r : Request)
    (n : Nat) (rest : String) (hmethod : r.Method = "GET") (hn : 1 ≤ n)
    (hint : (n : Int) ≤ strconv.maxInt)
    (huri : r.RequestURI = "/conversations/" ++ strconv.Itoa n ++ "/" ++ rest) :
    conversationsHandler env st r
      = conversationsHandler env st { r with RequestURI := "/conversations/" ++ strconv.Itoa n } ∧
    (conversationsHandler env st r).state.stmts = st.stmts ++ [Stmt.select n] ∧
    (env.selectErr = none → Unwritten st.w →
      ∃ st', conversationsHandler env st r = .returned st' ∧ st'.w.status = 200 ∧
        st'.w.body = [conversationJSON n (renderedRows st.rows n)]) := by
  have hslash : '/' ∉ (strconv.Itoa n).data := strconv.Itoa_not_mem n '/' (by decide)
  have hseg : (strings.Split r.RequestURI '/')[2]? = some (strconv.Itoa n) := by
    rw [huri, String.append_assoc]
    exact strings.Split_conversations (strconv.Itoa n) ("/" ++ rest) hslash
      (Or.inr (by simp [String.data_append]))
  have hseg2 : (strings.Split ("/conversations/" ++ strconv.Itoa n) '/')[2]?
      = some (strconv.Itoa n) := by
    have := strings.Split_conversations (strconv.Itoa n) "" hslash (Or.inl rfl)
    simpa using this
  have hatoi := strconv.Atoi_Itoa n hint
  refine ⟨?_, ?_, ?_⟩
  · exact (conversationsHandler_congr env st r
      { r with RequestURI := "/conversations/" ++ strconv.Itoa n } rfl
      (hseg2.trans hseg.symm)).symm
  · have hn2 : ¬ ((n : Int) < 1) := by omega
    unfold conversationsHandler
    cases hsel : env.selectErr <;>
      simp [hmethod, hseg, atoiPair, hatoi, hn2, Select, hsel, Outcome.state,
        (respondWithJSON_store _ _ _).2.1, (respondWithError_store _ _ _ _).2.1]
  · intro hsel hw
    obtain ⟨st', hrun, hstatus, hbody, _⟩ := conversationsHandler_found env st r
      (strconv.Itoa n) n hmethod hseg hatoi (by omega) hsel hw
    exact ⟨st', hrun, hstatus, hbody⟩

/-- C10 (amended) at the target `/conversations/1234/extra/segments?x=1`. -/
theorem conversationsHandler_ignores_after_third_slash_witness :
    conversationsHandler (sampleEnv teapot) sampleState
        (sampleRequest "GET" "/conversations/1234/extra/segments?x=1")
      = conversationsHandler (sampleEnv teapot) sampleState
          { sampleRequest "GET" "/conversations/1234/extra/segments?x=1" with
            RequestURI := "/conversations/1234" } ∧
    (conversationsHandler (sampleEnv teapot) sampleState
        (sampleRequest "GET" "/conversations/1234/extra/segments?x=1")).state.stmts
      = [Stmt.select 1234] ∧
    (∃ st', conversationsHandler (sampleEnv teapot) sampleState
        (sampleRequest "GET" "/conversations/1234/extra/segments?x=1") = .returned st' ∧
      st'.w.status = 200 ∧
      st'.w.body = [conversationJSON 1234
        [renderedMessage "anson" "I'm a teapot" "2019-05-01T10:00:00Z",
         renderedMessage "david" "Short and stout" "2019-05-01T10:00:00Z"]]) :=
  match conversationsHandler_ignores_after_third_slash (sampleEnv teapot) sampleState
      (sampleRequest "GET" "/conversations/1234/extra/segments?x=1") 1234 "extra/segments?x=1"
      rfl (by decide) (by decide) (by decide) with
  | ⟨hsame, hstmts, hfound⟩ => ⟨hsame, hstmts, hfound rfl ⟨rfl, rfl⟩⟩

/-- C10 as stated fails: the target `/conversations/1234?x=1` has the URL path
`/conversations/1234`, yet it is answered 404 without a select, where the plain
target `/conversations/1234` is answered 200 after the select for 1234; and
for `n = 2^63` the target `/conversations/9223372036854775808` is answered 404
without a select, since the identifier does not fit an `int`. -/
theorem conversationsHandler_query_string_counterexample :
    (NewRequest "GET" "/conversations/1234?x=1" "").map
        (fun r => (r.URL.Path,
          (conversationsHandler (sampleEnv teapot) sampleState r).state.w.status,
          (conversationsHandler (sampleEnv teapot) sampleState r).state.stmts))
      = some ("/conversations/1234", 404, []) ∧
    (NewRequest "GET" "/conversations/1234" "").map
        (fun r => (r.URL.Path,
          (conversationsHandler (sampleEnv teapot) sampleState r).state.w.status,
          (conversationsHandler (sampleEnv teapot) sampleState r).state.stmts))
      = some ("/conversations/1234", 200, [Stmt.select 1234]) ∧
    (NewRequest "GET" "/conversations/9223372036854775808" "").map
        (fun r => (r.URL.Path,
          (conversationsHandler (sampleEnv teapot) sampleState r).state.w.status,
          (conversationsHandler (sampleEnv teapot) sampleState r).state.stmts))
      = some ("/conversations/9223372036854775808", 404, []) := by
  refine ⟨by decide, by decide, by decide⟩
